import Mathlib

/-!
# Verification of the Infynd CampaignAI core pipeline

Shallow embedding of the campaign pipeline orchestrator, the approval
websocket protocol, the dispatch/substitution engine and the stage agents of
the `infynd_campaign_engine` repository, together with proofs and refutations
of the specified properties.

Conventions of the embedding:
* SQLAlchemy rows become Lean structures; nullable columns become `Option`.
* Python `float` engagement scores become `ℚ` (the comparisons performed by
  the code are order comparisons, which agree with the rational order on all
  values the code handles; no NaN is ever produced by the pipeline).
* The database session becomes explicit state passing over a `SystemState`
  for one campaign; `UPDATE ... WHERE campaign_id = ...` becomes a field
  update, `UPDATE pipeline_runs WHERE campaign_id = ...` updates every run
  of the (single) campaign, exactly as the SQL does.
* External collaborators (the Ollama generator, SendGrid, Twilio) become
  explicit oracle parameters; an exception raised by a collaborator becomes
  the corresponding `Option`/`Except` failure value.
-/

/-- Campaign lifecycle states, from `app/models/campaign.py` (`PipelineState`). -/
inductive PState where
  | CREATED
  | CLASSIFIED
  | CONTACTS_RETRIEVED
  | CHANNEL_DECIDED
  | CONTENT_GENERATED
  | AWAITING_APPROVAL
  | APPROVED
  | DISPATCHED
  | COMPLETED
  | FAILED
deriving DecidableEq, Repr

/-- Position of a state along the lifecycle graph
`CREATED → CLASSIFIED → CONTACTS_RETRIEVED → CHANNEL_DECIDED →
CONTENT_GENERATED → {AWAITING_APPROVAL | APPROVED} → DISPATCHED → COMPLETED`
of spec §4.1 (AWAITING_APPROVAL and APPROVED share the branch level order,
with APPROVED following AWAITING_APPROVAL when both occur). -/
def PState.rank : PState → Nat
  | .CREATED => 0
  | .CLASSIFIED => 1
  | .CONTACTS_RETRIEVED => 2
  | .CHANNEL_DECIDED => 3
  | .CONTENT_GENERATED => 4
  | .AWAITING_APPROVAL => 5
  | .APPROVED => 6
  | .DISPATCHED => 7
  | .COMPLETED => 8
  | .FAILED => 9

/-- One observed lifecycle transition is forward along the graph, or falls
to `FAILED` from a non-terminal state (spec §8, "Monotonic lifecycle"). -/
def stepOk (a b : PState) : Prop :=
  (b ≠ .FAILED ∧ a ≠ .FAILED ∧ a.rank ≤ b.rank) ∨
  (b = .FAILED ∧ a ≠ .COMPLETED ∧ a ≠ .FAILED)

instance (a b : PState) : Decidable (stepOk a b) :=
  inferInstanceAs (Decidable ((b ≠ .FAILED ∧ a ≠ .FAILED ∧ a.rank ≤ b.rank) ∨
    (b = .FAILED ∧ a ≠ .COMPLETED ∧ a ≠ .FAILED)))

/-! ## Contact rows

`app/models/contact.py` (`Contact`) joined with `icp_results` as selected by
the retrieval agent.  `buying_probability_score` is selected with
`COALESCE(..., 0)`, so the embedded row carries the coalesced score.  The
declared ORM model has no phone column; the dispatch and voice code read
`phone_number` / `phoneno` / `phone` defensively through `getattr`, so the
embedding carries the result of that chain as an optional `phone` field. -/
structure ContactRow where
  email : String
  name : Option String := none
  role : Option String := none
  company : Option String := none
  location : Option String := none
  category : Option String := none
  emailclickrate : Option ℚ := none
  linkedinclickrate : Option ℚ := none
  callanswerrate : Option ℚ := none
  preferredtime : Option String := none
  phone : Option String := none
  score : ℚ := 0
deriving DecidableEq, Repr

/-! ## Channel decision agent

`app/agents/channel_decision_agent.py`.  `_decide_channel` reads the three
engagement-rate keys of a contact dict through `safe_float`; a missing,
`None` or non-numeric value becomes `none` here. -/

def CHANNEL_PRIORITY : List String := ["Email", "LinkedIn", "Call"]

/-- Function `_decide_channel` from `channel_decision_agent.py`: build the per-channel
score dict, drop nulls, take the maximum, collect the tied channels and pick
the first tied channel in `CHANNEL_PRIORITY`; all-null contacts default to
`"Email"`. -/
def decideChannel (c : ContactRow) : String :=
  let scores : List (String × Option ℚ) :=
    [("Email", c.emailclickrate), ("LinkedIn", c.linkedinclickrate),
     ("Call", c.callanswerrate)]
  let nonNull : List (String × ℚ) :=
    scores.filterMap (fun p => p.2.map (fun v => (p.1, v)))
  if nonNull.isEmpty then "Email"
  else
    let maxScore : ℚ := ((nonNull.map Prod.snd).max?).getD 0
    let tied : List String :=
      (nonNull.filter (fun p => p.2 = maxScore)).map Prod.fst
    match CHANNEL_PRIORITY.find? (fun ch => tied.contains ch) with
    | some ch => ch
    | none => "Email"

/-- The score dict built by `_decide_channel`, viewed as a lookup. -/
def channelScore (c : ContactRow) (ch : String) : Option ℚ :=
  if ch = "Email" then c.emailclickrate
  else if ch = "LinkedIn" then c.linkedinclickrate
  else if ch = "Call" then c.callanswerrate
  else none

/-- Index of a channel in the fixed priority order (lower = higher priority). -/
def channelPriorityIndex (ch : String) : Nat :=
  (CHANNEL_PRIORITY.indexOf ch)

/-! ### Characterization of `_decide_channel`

The following lemmas compute `decideChannel` for each pattern of present /
absent engagement scores, with the running maximum generalized to `M` so the
tie conditions can be rewritten without looping. -/

lemma dc_sss (c : ContactRow) (e l cl M : ℚ)
    (h1 : c.emailclickrate = some e) (h2 : c.linkedinclickrate = some l)
    (h3 : c.callanswerrate = some cl) (hM : M = e ⊔ (l ⊔ cl)) :
    decideChannel c =
      (if e = M then "Email" else if l = M then "LinkedIn" else "Call") := by
  have heM : e = M ↔ l ≤ e ∧ cl ≤ e := by
    constructor
    · intro h
      refine ⟨?_, ?_⟩
      · calc l ≤ l ⊔ cl := le_sup_left
          _ ≤ e ⊔ (l ⊔ cl) := le_sup_right
          _ = M := hM.symm
          _ = e := h.symm
      · calc cl ≤ l ⊔ cl := le_sup_right
          _ ≤ e ⊔ (l ⊔ cl) := le_sup_right
          _ = M := hM.symm
          _ = e := h.symm
    · intro h
      rw [hM]
      exact (sup_eq_left.mpr (sup_le h.1 h.2)).symm
  simp [decideChannel, h1, h2, h3, List.filter_cons, List.find?, ← hM]
  by_cases he : l ≤ e ∧ cl ≤ e
  · simp [he, heM.mpr he]
  · have hemax : e ≠ M := fun h => he (heM.mp h)
    by_cases hl : l = M
    · simp [he, hl, hemax]
    · have hcl : cl = M := by
        rcases max_choice e (l ⊔ cl) with h | h
        · exact absurd (hM.trans h) (fun hh => hemax hh.symm)
        · rcases max_choice l cl with h2 | h2
          · exact absurd (hM.trans (h.trans h2)) (fun hh => hl hh.symm)
          · exact (hM.trans (h.trans h2)).symm
      simp [he, hl, hcl, hemax]

lemma dc_ssn (c : ContactRow) (e l M : ℚ)
    (h1 : c.emailclickrate = some e) (h2 : c.linkedinclickrate = some l)
    (h3 : c.callanswerrate = none) (hM : M = e ⊔ l) :
    decideChannel c = (if e = M then "Email" else "LinkedIn") := by
  have heM : e = M ↔ l ≤ e := by
    rw [hM]
    constructor
    · intro h
      calc l ≤ e ⊔ l := le_sup_right
        _ = e := h.symm
    · intro h
      exact (sup_eq_left.mpr h).symm
  simp [decideChannel, h1, h2, h3, List.filter_cons, List.find?, ← hM]
  by_cases he : l ≤ e
  · simp [he, heM.mpr he]
  · have hemax : e ≠ M := fun h => he (heM.mp h)
    have hl : l = M := by
      rcases max_choice e l with h | h
      · exact absurd (hM.trans h) (fun hh => hemax hh.symm)
      · exact (hM.trans h).symm
    simp [he, hl, hemax]

lemma dc_sns (c : ContactRow) (e cl M : ℚ)
    (h1 : c.emailclickrate = some e) (h2 : c.linkedinclickrate = none)
    (h3 : c.callanswerrate = some cl) (hM : M = e ⊔ cl) :
    decideChannel c = (if e = M then "Email" else "Call") := by
  have heM : e = M ↔ cl ≤ e := by
    rw [hM]
    constructor
    · intro h
      calc cl ≤ e ⊔ cl := le_sup_right
        _ = e := h.symm
    · intro h
      exact (sup_eq_left.mpr h).symm
  simp [decideChannel, h1, h2, h3, List.filter_cons, List.find?, ← hM]
  by_cases he : cl ≤ e
  · simp [he, heM.mpr he]
  · have hemax : e ≠ M := fun h => he (heM.mp h)
    have hcl : cl = M := by
      rcases max_choice e cl with h | h
      · exact absurd (hM.trans h) (fun hh => hemax hh.symm)
      · exact (hM.trans h).symm
    simp [he, hcl, hemax]

lemma dc_nss (c : ContactRow) (l cl M : ℚ)
    (h1 : c.emailclickrate = none) (h2 : c.linkedinclickrate = some l)
    (h3 : c.callanswerrate = some cl) (hM : M = l ⊔ cl) :
    decideChannel c = (if l = M then "LinkedIn" else "Call") := by
  have hlM : l = M ↔ cl ≤ l := by
    rw [hM]
    constructor
    · intro h
      calc cl ≤ l ⊔ cl := le_sup_right
        _ = l := h.symm
    · intro h
      exact (sup_eq_left.mpr h).symm
  simp [decideChannel, h1, h2, h3, List.filter_cons, List.find?, ← hM]
  by_cases he : cl ≤ l
  · simp [he, hlM.mpr he]
  · have hlmax : l ≠ M := fun h => he (hlM.mp h)
    have hcl : cl = M := by
      rcases max_choice l cl with h | h
      · exact absurd (hM.trans h) (fun hh => hlmax hh.symm)
      · exact (hM.trans h).symm
    simp [he, hcl, hlmax]

lemma dc_snn (c : ContactRow) (e : ℚ)
    (h1 : c.emailclickrate = some e) (h2 : c.linkedinclickrate = none)
    (h3 : c.callanswerrate = none) : decideChannel c = "Email" := by
  simp [decideChannel, h1, h2, h3, List.filter_cons, List.find?]

lemma dc_nsn (c : ContactRow) (l : ℚ)
    (h1 : c.emailclickrate = none) (h2 : c.linkedinclickrate = some l)
    (h3 : c.callanswerrate = none) : decideChannel c = "LinkedIn" := by
  simp [decideChannel, h1, h2, h3, List.filter_cons, List.find?]

lemma dc_nns (c : ContactRow) (cl : ℚ)
    (h1 : c.emailclickrate = none) (h2 : c.linkedinclickrate = none)
    (h3 : c.callanswerrate = some cl) : decideChannel c = "Call" := by
  simp [decideChannel, h1, h2, h3, List.filter_cons, List.find?]

lemma dc_nnn (c : ContactRow)
    (h1 : c.emailclickrate = none) (h2 : c.linkedinclickrate = none)
    (h3 : c.callanswerrate = none) : decideChannel c = "Email" := by
  simp [decideChannel, h1, h2, h3]

lemma channelScore_email (c : ContactRow) : channelScore c "Email" = c.emailclickrate := rfl

lemma channelScore_linkedin (c : ContactRow) :
    channelScore c "LinkedIn" = c.linkedinclickrate := rfl

lemma channelScore_call (c : ContactRow) : channelScore c "Call" = c.callanswerrate := rfl

lemma dc_opt (c : ContactRow) (ch : String) (v : ℚ)
    (hv : channelScore c ch = some v) :
    ∃ w, channelScore c (decideChannel c) = some w ∧ v ≤ w ∧
      (v = w → channelPriorityIndex (decideChannel c) ≤ channelPriorityIndex ch) := by
  have hch : (ch = "Email" ∧ c.emailclickrate = some v) ∨
      (ch = "LinkedIn" ∧ c.linkedinclickrate = some v) ∨
      (ch = "Call" ∧ c.callanswerrate = some v) := by
    unfold channelScore at hv
    split at hv
    · exact Or.inl ⟨by assumption, hv⟩
    · split at hv
      · exact Or.inr (Or.inl ⟨by assumption, hv⟩)
      · split at hv
        · exact Or.inr (Or.inr ⟨by assumption, hv⟩)
        · exact absurd hv (by simp)
  rcases he : c.emailclickrate with _ | e <;>
    rcases hl : c.linkedinclickrate with _ | l <;>
    rcases hc : c.callanswerrate with _ | cl
  · -- all none: hv impossible
    rcases hch with ⟨rfl, h⟩ | ⟨rfl, h⟩ | ⟨rfl, h⟩ <;> simp_all
  · -- only call
    rw [dc_nns c cl he hl hc, channelScore_call]
    rcases hch with ⟨rfl, h⟩ | ⟨rfl, h⟩ | ⟨rfl, h⟩
    · exact absurd (he.symm.trans h) (by simp)
    · exact absurd (hl.symm.trans h) (by simp)
    · injection (hc.symm.trans h) with hveq
      exact ⟨cl, hc ▸ rfl, le_of_eq hveq.symm, fun _ => le_refl _⟩
  · -- only linkedin
    rw [dc_nsn c l he hl hc, channelScore_linkedin]
    rcases hch with ⟨rfl, h⟩ | ⟨rfl, h⟩ | ⟨rfl, h⟩
    · exact absurd (he.symm.trans h) (by simp)
    · injection (hl.symm.trans h) with hveq
      exact ⟨l, hl ▸ rfl, le_of_eq hveq.symm, fun _ => le_refl _⟩
    · exact absurd (hc.symm.trans h) (by simp)
  · -- linkedin + call
    rw [dc_nss c l cl (l ⊔ cl) he hl hc rfl]
    by_cases hq : l = l ⊔ cl
    · rw [if_pos hq, channelScore_linkedin, hl]
      rcases hch with ⟨rfl, h⟩ | ⟨rfl, h⟩ | ⟨rfl, h⟩
      · exact absurd (he.symm.trans h) (by simp)
      · injection (hl.symm.trans h) with hveq
        exact ⟨l, rfl, le_of_eq hveq.symm, fun _ => le_refl _⟩
      · injection (hc.symm.trans h) with hveq
        refine ⟨l, rfl, ?_, fun _ => by decide⟩
        calc v = cl := hveq.symm
          _ ≤ l ⊔ cl := le_sup_right
          _ = l := hq.symm
    · rw [if_neg hq, channelScore_call, hc]
      have hcl : l ⊔ cl = cl := (max_choice l cl).resolve_left (fun h => hq h.symm)
      rcases hch with ⟨rfl, h⟩ | ⟨rfl, h⟩ | ⟨rfl, h⟩
      · exact absurd (he.symm.trans h) (by simp)
      · injection (hl.symm.trans h) with hveq
        refine ⟨cl, rfl, ?_, fun hveq2 => ?_⟩
        · calc v = l := hveq.symm
            _ ≤ l ⊔ cl := le_sup_left
            _ = cl := hcl
        · exact absurd ((hveq.trans hveq2).trans hcl.symm) hq
      · injection (hc.symm.trans h) with hveq
        exact ⟨cl, rfl, le_of_eq hveq.symm, fun _ => le_refl _⟩
  · -- only email
    rw [dc_snn c e he hl hc, channelScore_email]
    rcases hch with ⟨rfl, h⟩ | ⟨rfl, h⟩ | ⟨rfl, h⟩
    · injection (he.symm.trans h) with hveq
      exact ⟨e, he ▸ rfl, le_of_eq hveq.symm, fun _ => le_refl _⟩
    · exact absurd (hl.symm.trans h) (by simp)
    · exact absurd (hc.symm.trans h) (by simp)
  · -- email + call
    rw [dc_sns c e cl (e ⊔ cl) he hl hc rfl]
    by_cases hq : e = e ⊔ cl
    · rw [if_pos hq, channelScore_email, he]
      rcases hch with ⟨rfl, h⟩ | ⟨rfl, h⟩ | ⟨rfl, h⟩
      · injection (he.symm.trans h) with hveq
        exact ⟨e, rfl, le_of_eq hveq.symm, fun _ => by decide⟩
      · exact absurd (hl.symm.trans h) (by simp)
      · injection (hc.symm.trans h) with hveq
        refine ⟨e, rfl, ?_, fun _ => by decide⟩
        calc v = cl := hveq.symm
          _ ≤ e ⊔ cl := le_sup_right
          _ = e := hq.symm
    · rw [if_neg hq, channelScore_call, hc]
      have hcl : e ⊔ cl = cl := (max_choice e cl).resolve_left (fun h => hq h.symm)
      rcases hch with ⟨rfl, h⟩ | ⟨rfl, h⟩ | ⟨rfl, h⟩
      · injection (he.symm.trans h) with hveq
        refine ⟨cl, rfl, ?_, fun hveq2 => ?_⟩
        · calc v = e := hveq.symm
            _ ≤ e ⊔ cl := le_sup_left
            _ = cl := hcl
        · exact absurd ((hveq.trans hveq2).trans hcl.symm) hq
      · exact absurd (hl.symm.trans h) (by simp)
      · injection (hc.symm.trans h) with hveq
        exact ⟨cl, rfl, le_of_eq hveq.symm, fun _ => le_refl _⟩
  · -- email + linkedin
    rw [dc_ssn c e l (e ⊔ l) he hl hc rfl]
    by_cases hq : e = e ⊔ l
    · rw [if_pos hq, channelScore_email, he]
      rcases hch with ⟨rfl, h⟩ | ⟨rfl, h⟩ | ⟨rfl, h⟩
      · injection (he.symm.trans h) with hveq
        exact ⟨e, rfl, le_of_eq hveq.symm, fun _ => by decide⟩
      · injection (hl.symm.trans h) with hveq
        refine ⟨e, rfl, ?_, fun _ => by decide⟩
        calc v = l := hveq.symm
          _ ≤ e ⊔ l := le_sup_right
          _ = e := hq.symm
      · exact absurd (hc.symm.trans h) (by simp)
    · rw [if_neg hq, channelScore_linkedin, hl]
      have hll : e ⊔ l = l := (max_choice e l).resolve_left (fun h => hq h.symm)
      rcases hch with ⟨rfl, h⟩ | ⟨rfl, h⟩ | ⟨rfl, h⟩
      · injection (he.symm.trans h) with hveq
        refine ⟨l, rfl, ?_, fun hveq2 => ?_⟩
        · calc v = e := hveq.symm
            _ ≤ e ⊔ l := le_sup_left
            _ = l := hll
        · exact absurd ((hveq.trans hveq2).trans hll.symm) hq
      · injection (hl.symm.trans h) with hveq
        exact ⟨l, rfl, le_of_eq hveq.symm, fun _ => le_refl _⟩
      · exact absurd (hc.symm.trans h) (by simp)
  · -- all three
    rw [dc_sss c e l cl (e ⊔ (l ⊔ cl)) he hl hc rfl]
    have hvle : v ≤ e ⊔ (l ⊔ cl) := by
      rcases hch with ⟨rfl, h⟩ | ⟨rfl, h⟩ | ⟨rfl, h⟩
      · injection (he.symm.trans h) with hveq
        exact hveq ▸ le_sup_left
      · injection (hl.symm.trans h) with hveq
        exact hveq ▸ le_sup_of_le_right le_sup_left
      · injection (hc.symm.trans h) with hveq
        exact hveq ▸ le_sup_of_le_right le_sup_right
    by_cases hqe : e = e ⊔ (l ⊔ cl)
    · rw [if_pos hqe, channelScore_email, he]
      exact ⟨e, rfl, hqe ▸ hvle, fun _ => by
        rcases hch with ⟨rfl, _⟩ | ⟨rfl, _⟩ | ⟨rfl, _⟩ <;> decide⟩
    · by_cases hql : l = e ⊔ (l ⊔ cl)
      · rw [if_pos hql, if_neg hqe, channelScore_linkedin, hl]
        refine ⟨l, rfl, hql ▸ hvle, fun hveq2 => ?_⟩
        rcases hch with ⟨rfl, h⟩ | ⟨rfl, h⟩ | ⟨rfl, h⟩
        · injection (he.symm.trans h) with hveq
          exact absurd ((hveq.trans hveq2).trans hql) hqe
        · decide
        · decide
      · have hqc : cl = e ⊔ (l ⊔ cl) := by
          rcases max_choice e (l ⊔ cl) with h | h
          · exact absurd h.symm hqe
          · rcases max_choice l cl with h2 | h2
            · exact absurd (h.trans h2).symm hql
            · exact (h.trans h2).symm
        rw [if_neg hql, if_neg hqe, channelScore_call, hc]
        refine ⟨cl, rfl, hqc ▸ hvle, fun hveq2 => ?_⟩
        rcases hch with ⟨rfl, h⟩ | ⟨rfl, h⟩ | ⟨rfl, h⟩
        · injection (he.symm.trans h) with hveq
          exact absurd ((hveq.trans hveq2).trans hqc) hqe
        · injection (hl.symm.trans h) with hveq
          exact absurd ((hveq.trans hveq2).trans hqc) hql
        · decide

lemma dc_mem (c : ContactRow) : decideChannel c ∈ CHANNEL_PRIORITY := by
  rcases he : c.emailclickrate with _ | e <;>
    rcases hl : c.linkedinclickrate with _ | l <;>
    rcases hc : c.callanswerrate with _ | cl
  · rw [dc_nnn c he hl hc]; decide
  · rw [dc_nns c cl he hl hc]; decide
  · rw [dc_nsn c l he hl hc]; decide
  · rw [dc_nss c l cl (l ⊔ cl) he hl hc rfl]
    split <;> decide
  · rw [dc_snn c e he hl hc]; decide
  · rw [dc_sns c e cl (e ⊔ cl) he hl hc rfl]
    split <;> decide
  · rw [dc_ssn c e l (e ⊔ l) he hl hc rfl]
    split <;> decide
  · rw [dc_sss c e l cl (e ⊔ (l ⊔ cl)) he hl hc rfl]
    split <;> [decide; skip]
    split <;> decide

/-- Claim C9 (channel-decision determinism): `_decide_channel` is a pure
total function of the three engagement scores: its result is always one of
the three channels; with all three scores absent it is `"Email"`; any
present score is at most the decided channel's score; and among channels
tied at the decided score the decided one has the best fixed priority
(email before professional-network before call).  The three spec examples:
0.8/0.8/null decides email, all-null decides email, 0.3/0.9/0.1 decides the
professional network. -/
theorem C9_channel_decision (c : ContactRow) :
    decideChannel c ∈ CHANNEL_PRIORITY
    ∧ (c.emailclickrate = none ∧ c.linkedinclickrate = none ∧
        c.callanswerrate = none → decideChannel c = "Email")
    ∧ (∀ ch v, channelScore c ch = some v →
        ∃ w, channelScore c (decideChannel c) = some w ∧ v ≤ w ∧
          (v = w → channelPriorityIndex (decideChannel c) ≤ channelPriorityIndex ch))
    ∧ decideChannel
        { email := "a@x.com"
          emailclickrate := some (mkRat 8 10)
          linkedinclickrate := some (mkRat 8 10) } = "Email"
    ∧ decideChannel { email := "b@x.com" } = "Email"
    ∧ decideChannel
        { email := "c@x.com"
          emailclickrate := some (mkRat 3 10)
          linkedinclickrate := some (mkRat 9 10)
          callanswerrate := some (mkRat 1 10) } = "LinkedIn" := by
  refine ⟨dc_mem c, fun h => dc_nnn c h.1 h.2.1 h.2.2, dc_opt c, by decide, by decide, by decide⟩

/-- Witness for C9 at the spec's concrete score triples. -/
theorem C9_witness :
    (decideChannel
      { email := "c@x.com"
        emailclickrate := some (mkRat 3 10)
        linkedinclickrate := some (mkRat 9 10)
        callanswerrate := some (mkRat 1 10) } ∈ CHANNEL_PRIORITY)
    ∧ decideChannel { email := "b@x.com" } = "Email"
    ∧ ∃ w, channelScore
        { email := "c@x.com"
          emailclickrate := some (mkRat 3 10)
          linkedinclickrate := some (mkRat 9 10)
          callanswerrate := some (mkRat 1 10) }
        (decideChannel
          { email := "c@x.com"
            emailclickrate := some (mkRat 3 10)
            linkedinclickrate := some (mkRat 9 10)
            callanswerrate := some (mkRat 1 10) }) = some w ∧ mkRat 3 10 ≤ w :=
  ⟨(C9_channel_decision _).1,
   (C9_channel_decision { email := "b@x.com" }).2.1 ⟨rfl, rfl, rfl⟩,
   match (C9_channel_decision _).2.2.1 "Email" (mkRat 3 10) (by decide) with
   | ⟨w, hw, hle, _⟩ => ⟨w, hw, hle⟩⟩

/-! ## Templates and generated content

Template objects stored under `generated_content` are JSON objects whose
values may be strings, nested objects or other JSON scalars (represented
opaquely by `other`).  The mutual encoding keeps every definition below
structurally recursive, hence computable by kernel reduction. -/

mutual
inductive TmplVal where
  | str (s : String)
  | dict (fields : TmplFields)
  | other
deriving Repr
inductive TmplFields where
  | nil
  | cons (key : String) (value : TmplVal) (rest : TmplFields)
deriving Repr
end

mutual
def TmplVal.beq : TmplVal → TmplVal → Bool
  | .str s, .str t => s == t
  | .dict fs, .dict gs => TmplFields.beq fs gs
  | .other, .other => true
  | _, _ => false
def TmplFields.beq : TmplFields → TmplFields → Bool
  | .nil, .nil => true
  | .cons k v r, .cons k' v' r' => k == k' && TmplVal.beq v v' && TmplFields.beq r r'
  | _, _ => false
end

mutual
theorem TmplVal.beqVal_iff_eq (a b : TmplVal) : TmplVal.beq a b = true ↔ a = b := by
  cases a <;> cases b <;> simp [TmplVal.beq]
  case dict.dict fs gs => exact TmplFields.beqFields_iff_eq fs gs
theorem TmplFields.beqFields_iff_eq (a b : TmplFields) : TmplFields.beq a b = true ↔ a = b := by
  cases a <;> cases b <;> simp [TmplFields.beq]
  case cons.cons k v r k' v' r' =>
    rw [TmplVal.beqVal_iff_eq, TmplFields.beqFields_iff_eq]
    tauto
end

instance : DecidableEq TmplVal := fun a b =>
  decidable_of_iff (TmplVal.beq a b = true) (TmplVal.beqVal_iff_eq a b)

instance : DecidableEq TmplFields := fun a b =>
  decidable_of_iff (TmplFields.beq a b = true) (TmplFields.beqFields_iff_eq a b)

/-- View a JSON object as an association list. -/
def TmplFields.toList : TmplFields → List (String × TmplVal)
  | .nil => []
  | .cons k v r => (k, v) :: TmplFields.toList r

/-- Build a JSON object from an association list. -/
def TmplFields.ofList : List (String × TmplVal) → TmplFields
  | [] => .nil
  | (k, v) :: r => .cons k v (TmplFields.ofList r)

/-- Python `d.get(k)` on a JSON object. -/
def TmplFields.get? (fs : TmplFields) (k : String) : Option TmplVal :=
  (fs.toList.find? (fun p => p.1 = k)).map Prod.snd

/-- Python `d[k] = v` on a JSON object (overwrite the first binding). -/
def TmplFields.set (fs : TmplFields) (k : String) (v : TmplVal) : TmplFields :=
  match fs with
  | .nil => .cons k v .nil
  | .cons k' v' r => if k' = k then .cons k' v r else .cons k' v' (TmplFields.set r k v)

/-! ## Placeholder substitution (`_substitute` in `dispatch_service.py`)

The regex `\x5b([^\x5d]+)\x5d` scans for a literal opening bracket followed
by one or more non-closing-bracket characters and a closing bracket; each
match is replaced by `_replace` applied to the token between the brackets.
`splitOnRBracket` finds the first closing bracket; `substCoreF` is that scan
written with an explicit fuel argument (any fuel at least the length of the
list computes the scan; the wrapper passes the length), keeping the
definition structurally recursive. -/

def splitOnRBracket : List Char → Option (List Char × List Char)
  | [] => none
  | c :: cs =>
    if c = ']' then some ([], cs)
    else
      match splitOnRBracket cs with
      | some (tok, rest) => some (c :: tok, rest)
      | none => none

def substCoreF (repl : String → String) : Nat → List Char → List Char
  | 0, cs => cs
  | _ + 1, [] => []
  | f + 1, c :: cs =>
    if c = '[' then
      match splitOnRBracket cs with
      | some (tok, rest) =>
        if tok.isEmpty then '[' :: substCoreF repl f cs
        else (repl (String.mk tok)).toList ++ substCoreF repl f rest
      | none => '[' :: substCoreF repl f cs
    else c :: substCoreF repl f cs

/-- Embedding of `re.sub(r"\x5b([^\x5d]+)\x5d", repl, s)` where `repl` receives the token
between the brackets (`match.group(1)`). -/
def substString (repl : String → String) (s : String) : String :=
  String.mk (substCoreF repl s.toList.length s.toList)

example : substString (fun t => "<" ++ t ++ ">") "a[b]c[]d[e" = "a<b>c[]d[e" := by rfl

/-! ## Campaign record (`app/models/campaign.py`, `Campaign`)

Times are abstract ticks (`Nat`); only which timestamps are set matters to
the spec.  `generated_content` is the JSON bundle, kept structured as
`Bundle` below. -/

/-- One entry of the per-contact personalized content, as read by the
approval websocket (`data.get("channel", "Email")`, `data.get("content")`). -/
structure PersonEntry where
  channel : Option String := none
  content : Option TmplVal := none
deriving DecidableEq, Repr

/-- The `generated_content` JSON bundle.  The keys actually written or read
by the code are kept structurally: `"common"` (channel → template object),
`"contacts"` (contact email → channel name, read by the dispatcher and the
REST edit endpoints), `"personalized"` (contact email → entry, written by
content generation and read by the approval websocket), and any remaining
top-level keys (`topLevel`), which the websocket treats as per-contact
entries when no `"personalized"` key is present and which its `edit` /
`regenerate` handlers subscript directly.  An `Option` records whether the
key is present at all (the websocket reserved-key filter skips only
`"common"` and `"personalized"`; a stray `"contacts"` key would be picked up
by that legacy fallback, a corner no writer of the bundle produces and no
claim touches). -/
structure Bundle where
  common : List (String × TmplFields) := []
  contacts : Option (List (String × String)) := none
  personalized : Option (List (String × PersonEntry)) := none
  topLevel : List (String × PersonEntry) := []
deriving DecidableEq, Repr

/-- Model `app/models/campaign.py` (`Campaign`), restricted to the columns the
core reads or writes. -/
structure CampaignRec where
  campaignId : Nat := 0
  name : String := ""
  company : Option String := none
  campaign_purpose : Option String := none
  target_audience : Option String := none
  product_link : Option String := none
  prompt : Option String := none
  platform : Option String := none
  approval_required : Bool := true
  pipeline_locked : Bool := false
  pipeline_state : PState := .CREATED
  generated_content : Option Bundle := none
  approval_status : String := "PENDING"
  approved_at : Option Nat := none
  approved_by : Option String := none
deriving DecidableEq, Repr

/-- Python `str(x)` on an embedded rational.  The textual rendering of a
float differs from the rendering of a rational, but no specified property
compares the digits of a rendered engagement rate, only whether the token
was replaced at all. -/
def ratStr (q : ℚ) : String := toString q

/-- Python `str(x or "")` for an optional numeric column (`0` is falsy in Python). -/
def optRatStr : Option ℚ → String
  | none => ""
  | some q => if q = 0 then "" else ratStr q

/-- Python `x or ""` for an optional string column (`None` and `""` both give `""`). -/
def optStr : Option String → String
  | none => ""
  | some s => s


/-! ### Python string helpers

Lean core string functions are positional and do not compute by kernel
reduction, so the Python string operations used by the code are embedded
character-wise. -/

/-- Python `s.strip()`. -/
def strTrim (s : String) : String :=
  String.mk (((s.data.dropWhile Char.isWhitespace).reverse.dropWhile
    Char.isWhitespace).reverse)

/-- One scan step of Python `s.replace(pat, rep)` (left-to-right,
non-overlapping); `fuel` at least the length of the list computes the scan. -/
def replaceF (pat rep : List Char) : Nat → List Char → List Char
  | 0, cs => cs
  | _ + 1, [] => []
  | f + 1, c :: cs =>
    if pat.isPrefixOf (c :: cs) then
      rep ++ replaceF pat rep f ((c :: cs).drop pat.length)
    else c :: replaceF pat rep f cs

/-- Python `s.replace(pat, rep)` for a non-empty pattern (every use in the
code has one). -/
def strReplace (s pat rep : String) : String :=
  if pat.data.isEmpty then s
  else String.mk (replaceF pat.data rep.data s.data.length s.data)

/-- Python `s.startswith(pre)`. -/
def strStartsWith (s pre : String) : Bool :=
  pre.data.isPrefixOf s.data

/-- Python `sep.join(parts)`. -/
def strJoin (sep : String) : List String → String
  | [] => ""
  | [x] => x
  | x :: xs => x ++ sep ++ strJoin sep xs

/-- Normalization `key.lower().replace(" ", "_")`, the token normalization of
`_replace`. -/
def normKey (key : String) : String :=
  String.mk (key.data.map (fun c =>
    if Char.toLower c = ' ' then '_' else Char.toLower c))

/-- Function `_replace` from `dispatch_service._substitute`: normalise the token
(strip, lower-case, spaces to underscores), try the contact fields when a
contact row is available, then the campaign/sender fields, and otherwise
return the whole original match (`match.group(0)`) verbatim. -/
def substReplace (contact : Option ContactRow) (campaign : CampaignRec)
    (tok : String) : String :=
  let key := strTrim tok
  let k := normKey key
  let contactVal : Option String :=
    match contact with
    | none => none
    | some c =>
      if k = "contact_name" ∨ k = "name" then some (optStr c.name)
      else if k = "contact_role" ∨ k = "role" then some (optStr c.role)
      else if k = "contact_company" ∨ k = "company" then some (optStr c.company)
      else if k = "email" then some c.email
      else if k = "preferred_time" then some (optStr c.preferredtime)
      else if k = "email_click_rate" then some (optRatStr c.emailclickrate)
      else if k = "linkedin_click_rate" then some (optRatStr c.linkedinclickrate)
      else if k = "call_answer_rate" then some (optRatStr c.callanswerrate)
      else none
  match contactVal with
  | some v => v
  | none =>
    if k = "product_link" ∨ k = "cta_link" then optStr campaign.product_link
    else if k = "your_name" ∨ k = "sender" ∨ k = "from_name" then "Xyndrix Team"
    else if k = "campaign_name" then campaign.name
    else if k = "company" then optStr campaign.company
    else "[" ++ tok ++ "]"

mutual
/-- Function `_substitute` from `dispatch_service.py`: deep-copy the template (the
copy is the identity on values) and replace every bracketed token in every
string, recursing into nested objects; non-string scalars are returned
unchanged. -/
def TmplVal.substitute (contact : Option ContactRow) (campaign : CampaignRec) :
    TmplVal → TmplVal
  | .str s => .str (substString (substReplace contact campaign) s)
  | .other => .other
  | .dict fs => .dict (TmplFields.substitute contact campaign fs)
def TmplFields.substitute (contact : Option ContactRow) (campaign : CampaignRec) :
    TmplFields → TmplFields
  | .nil => .nil
  | .cons k v r =>
    .cons k (TmplVal.substitute contact campaign v)
      (TmplFields.substitute contact campaign r)
end

/-! ## Persistence records and system state -/

/-- Row of `outbound_messages` (`app/models/tracking.py`); `message_payload`
is stored as `json.dumps` of a JSON object, kept structured here. -/
structure OutboundMsg where
  campaign_id : Nat
  contact_email : String
  channel : String
  message_payload : TmplFields
  send_status : String
  provider_message_id : Option String := none
  sent_at : Option Nat := none
deriving DecidableEq, Repr

/-- Row of `engagement_history` (`app/models/tracking.py`). -/
structure EngagementEvt where
  campaign_id : Nat
  contact_email : String
  channel : String
  event_type : String
  payload : TmplFields
  occurred_at : Nat
deriving DecidableEq, Repr

/-- Classification filters (`classification_summary["filters"]`).  The
generator may return a role as a list or a comma-separated string; the
retrieval agent splits either into raw terms, so the embedding stores the
role as its list of raw terms, and each of the other filters as the single
string the agent builds from it. -/
structure Filters where
  role : List String := []
  location : String := ""
  category : String := ""
  company : String := ""
deriving DecidableEq, Repr

/-- Row of `pipeline_runs` (`app/models/pipeline.py`), restricted to the
fields the core reads or writes; `contacts` and `channel_map` are the
`downstream_results` keys. -/
structure RunRec where
  runId : Nat := 0
  state : PState := .CREATED
  classification_summary : Option Filters := none
  contacts : Option (List ContactRow) := none
  channel_map : Option (List (String × String)) := none
  error_message : Option String := none
  completed_at : Option Nat := none
deriving DecidableEq, Repr

/-- The persisted state for one campaign: its row, the contact store, its
pipeline runs, and the outbound-message / engagement ledgers. -/
structure SystemState where
  campaign : CampaignRec
  contactsDb : List ContactRow := []
  runs : List RunRec := []
  outbound : List OutboundMsg := []
  engagement : List EngagementEvt := []
deriving DecidableEq, Repr

/-- Lookup `common_templates.get(ch) or {}`. -/
def getCommon (common : List (String × TmplFields)) (ch : String) : TmplFields :=
  ((common.find? (fun p => p.1 = ch)).map Prod.snd).getD .nil

/-- Association-list lookup, Python `dict.get`. -/
def alistGet? {α : Type} (m : List (String × α)) (k : String) : Option α :=
  (m.find? (fun p => p.1 = k)).map Prod.snd

/-! ## Dispatch engine (`dispatch_service.dispatch_campaign`)

Oracles: `emailSend to content` returns the provider message id (`none`
both when `send_email` returns a falsy id and when it raises — the recorded
row is identical in the two cases); `callSend to script` returns
`some sid?` when `initiate_call` returns (with `call_sid` lookup `sid?`) and
`none` when it raises.  `now` is the abstract clock supplying
`datetime.utcnow()`. -/

/-- The body of the per-contact loop of `dispatch_campaign`.  The
idempotency guard is `scalar_one_or_none` over (campaign, contact, channel,
status SENT); the ledger the code builds never holds two successful rows
for one tuple, so existence is the decided condition. -/
def dispatchOne (emailSend : String → TmplFields → Option String)
    (callSend : String → String → Option (Option String)) (now : Nat)
    (contactsMap : List (String × String))
    (common : List (String × TmplFields))
    (s : SystemState) (contact_email : String) : SystemState :=
  let channel := (alistGet? contactsMap contact_email).getD "Email"
  -- Idempotency guard: an existing SENT row for (campaign, contact, channel)
  if s.outbound.any (fun m =>
      m.campaign_id == s.campaign.campaignId &&
      m.contact_email == contact_email &&
      m.channel == channel && m.send_status == "SENT") then s
  else
    let contact := s.contactsDb.find? (fun c => c.email = contact_email)
    if channel = "Email" then
      let template := getCommon common "Email"
      if template = .nil then s
      else
        let content := TmplFields.substitute contact s.campaign template
        let pid := emailSend contact_email content
        let status := if pid.isSome then "SENT" else "FAILED"
        { s with
          outbound := s.outbound ++
            [{ campaign_id := s.campaign.campaignId
               contact_email := contact_email
               channel := channel
               message_payload := content
               send_status := status
               provider_message_id := pid
               sent_at := if status = "SENT" then some now else none }]
          engagement := s.engagement ++
            [{ campaign_id := s.campaign.campaignId
               contact_email := contact_email
               channel := channel
               event_type := "SENT"
               payload := content
               occurred_at := now }] }
    else if channel = "Call" then
      let template := getCommon common "Call"
      if template = .nil then s
      else
        match contact with
        | none => s
        | some c =>
          let phone0 := strReplace (strTrim (optStr c.phone)) " " ""
          if phone0 = "" then s
          else
            let phone := if strStartsWith phone0 "+" then phone0 else "+91" ++ phone0
            let callScript := strJoin " | "
              (template.toList.filterMap (fun p =>
                match p.2 with
                | .str v => if p.1 = "cta_link" then none else some (p.1 ++ ": " ++ v)
                | _ => none))
            let result := callSend phone callScript
            let status := if result.isSome then "SENT" else "FAILED"
            let pid := (result.getD none)
            { s with
              outbound := s.outbound ++
                [{ campaign_id := s.campaign.campaignId
                   contact_email := contact_email
                   channel := channel
                   message_payload := template
                   send_status := status
                   provider_message_id := pid
                   sent_at := if status = "SENT" then some now else none }]
              engagement := s.engagement ++
                [{ campaign_id := s.campaign.campaignId
                   contact_email := contact_email
                   channel := channel
                   event_type := "SENT"
                   payload := template
                   occurred_at := now }] }
    else if channel = "LinkedIn" then
      let template := getCommon common "LinkedIn"
      if template = .nil then s
      else
        let content := TmplFields.substitute contact s.campaign template
        { s with
          outbound := s.outbound ++
            [{ campaign_id := s.campaign.campaignId
               contact_email := contact_email
               channel := channel
               message_payload := content
               send_status := "SENT"
               provider_message_id := none
               sent_at := some now }]
          engagement := s.engagement ++
            [{ campaign_id := s.campaign.campaignId
               contact_email := contact_email
               channel := channel
               event_type := "SENT"
               payload := content
               occurred_at := now }] }
    else s

/-- Function `dispatch_campaign`: entry guards, per-contact loop, then the two
lifecycle checkpoints `DISPATCHED` and `COMPLETED` plus the run update.
Returns the new state together with the list of campaign lifecycle states
written, in order (the observable state trace of the call).  The embedded
state always carries the one campaign, so the campaign-not-found early
return has no counterpart here. -/
def dispatch_campaign (emailSend : String → TmplFields → Option String)
    (callSend : String → String → Option (Option String)) (now : Nat)
    (s : SystemState) : SystemState × List PState :=
  if s.campaign.pipeline_state ≠ .APPROVED then (s, [])
  else
    let generated := s.campaign.generated_content.getD {}
    let common := generated.common
    let contactsMap := generated.contacts.getD []
    let contactEmails := (contactsMap.map Prod.fst).filter (fun e => e.data.contains '@')
    if contactEmails.isEmpty then (s, [])
    else if common.isEmpty then (s, [])
    else
      let s1 := contactEmails.foldl
        (dispatchOne emailSend callSend now contactsMap common) s
      let s2 := { s1 with campaign :=
        { s1.campaign with pipeline_state := .DISPATCHED } }
      let s3 := { s2 with
        campaign := { s2.campaign with pipeline_state := .COMPLETED }
        runs := s2.runs.map (fun r =>
          { r with state := .COMPLETED, completed_at := some now }) }
      (s3, [.DISPATCHED, .COMPLETED])

/-- Any dispatch call either leaves the state unchanged for every clock (an
entry guard fired, and the guards do not depend on the clock) or ends with
the campaign `COMPLETED`. -/
lemma dispatch_unchanged_or_completed
    (emailSend : String → TmplFields → Option String)
    (callSend : String → String → Option (Option String))
    (now : Nat) (s : SystemState) :
    (∀ n, (dispatch_campaign emailSend callSend n s).1 = s) ∨
    (dispatch_campaign emailSend callSend now s).1.campaign.pipeline_state =
      .COMPLETED := by
  by_cases h1 : s.campaign.pipeline_state = .APPROVED
  · by_cases h2 : ((((s.campaign.generated_content.getD {}).contacts.getD []).map
        Prod.fst).filter (fun e => e.data.contains '@')).isEmpty
    · exact Or.inl (fun n => by
        simp only [dispatch_campaign]
        rw [if_neg (by simp [h1]), if_pos h2])
    · by_cases h3 : ((s.campaign.generated_content.getD {}).common).isEmpty
      · exact Or.inl (fun n => by
          simp only [dispatch_campaign]
          rw [if_neg (by simp [h1]), if_neg h2, if_pos h3])
      · refine Or.inr ?_
        simp only [dispatch_campaign]
        rw [if_neg (by simp [h1]), if_neg h2, if_neg h3]
  · exact Or.inl (fun n => by
      simp only [dispatch_campaign]
      rw [if_pos (by simp [h1])])

/-- Claim C6 (dispatch idempotence): a dispatch call on a campaign not in
`APPROVED` state is a no-op, and calling dispatch twice (same providers,
any clocks) yields exactly the state of calling it once: the first call
either changes nothing or ends the campaign in `COMPLETED`, and the second
call then fails the `APPROVED` entry guard, so no new outbound message —
in particular none for a (campaign, contact, channel) tuple that already
has a successful send — is created. -/
theorem C6_dispatch_idempotent
    (emailSend : String → TmplFields → Option String)
    (callSend : String → String → Option (Option String))
    (now now2 : Nat) (s : SystemState) :
    (s.campaign.pipeline_state ≠ .APPROVED →
      (dispatch_campaign emailSend callSend now s).1 = s)
    ∧ (dispatch_campaign emailSend callSend now2
        (dispatch_campaign emailSend callSend now s).1).1 =
      (dispatch_campaign emailSend callSend now s).1 := by
  constructor
  · intro h
    simp [dispatch_campaign, h]
  · rcases dispatch_unchanged_or_completed emailSend callSend now s with h | h
    · rw [h now, h now2]
    · rw [dispatch_campaign, if_pos (by simp [h])]

/-- Witness for C6: a concrete campaign still in `CREATED` state, on which a
dispatch call is a no-op. -/
theorem C6_dispatch_idempotent_witness :
    ((({ campaign := { name := "c" } } : SystemState)).campaign.pipeline_state
        ≠ PState.APPROVED)
    ∧ (dispatch_campaign (fun _ _ => none) (fun _ _ => none) 0
        { campaign := { name := "c" } }).1 = { campaign := { name := "c" } } :=
  ⟨by decide,
   (C6_dispatch_idempotent (fun _ _ => none) (fun _ _ => none) 0 0
      { campaign := { name := "c" } }).1 (by decide)⟩

/-- A bundle whose only mapped contact is assigned the unrecognized channel
`"SMS"`, so the dispatch loop records nothing for it. -/
def skipBundle : Bundle :=
  { common := [("Email", .cons "subject" (.str "Hello") .nil)]
    contacts := some [("bob@x.com", "SMS")] }

/-- An `APPROVED` campaign carrying `skipBundle`. -/
def skipState : SystemState :=
  { campaign :=
    { name := "camp"
      pipeline_state := .APPROVED
      generated_content := some skipBundle } }

/-- Claim C10: once the three entry checks pass (campaign `APPROVED`, at least
one contact-map key containing `'@'`, non-empty template map), dispatch
unconditionally writes `DISPATCHED` then `COMPLETED` — and a contact can be
skipped with no outbound row at all, witnessed by `skipState`, whose only
mapped contact has the unrecognized channel `"SMS"`: the campaign ends
`COMPLETED` with an empty outbound ledger. -/
theorem C10_dispatch_completes_despite_skips
    (emailSend : String → TmplFields → Option String)
    (callSend : String → String → Option (Option String)) (now : Nat)
    (s : SystemState)
    (h1 : s.campaign.pipeline_state = .APPROVED)
    (h2 : ¬((((s.campaign.generated_content.getD {}).contacts.getD []).map
        Prod.fst).filter (fun e => e.data.contains '@')).isEmpty)
    (h3 : ¬((s.campaign.generated_content.getD {}).common).isEmpty) :
    ((dispatch_campaign emailSend callSend now s).1.campaign.pipeline_state =
        .COMPLETED
      ∧ (dispatch_campaign emailSend callSend now s).2 =
        [.DISPATCHED, .COMPLETED])
    ∧ ((dispatch_campaign (fun _ _ => some "id") (fun _ _ => some (some "sid"))
          0 skipState).1.campaign.pipeline_state = .COMPLETED
      ∧ (dispatch_campaign (fun _ _ => some "id") (fun _ _ => some (some "sid"))
          0 skipState).1.outbound = []) := by
  refine ⟨?_, by decide, by decide⟩
  simp only [dispatch_campaign]
  rw [if_neg (by simp [h1]), if_neg h2, if_neg h3]
  exact ⟨rfl, rfl⟩

/-- Witness for C10 at `skipState` itself. -/
theorem C10_dispatch_completes_despite_skips_witness :
    (dispatch_campaign (fun _ _ => some "id") (fun _ _ => some (some "sid"))
        0 skipState).1.campaign.pipeline_state = .COMPLETED :=
  ((C10_dispatch_completes_despite_skips (fun _ _ => some "id")
      (fun _ _ => some (some "sid")) 0 skipState
      (by decide) (by decide) (by decide)).1).1

/-! ## C2: substitution on dispatched payloads -/

/-- A call template with a substitutable placeholder. -/
def callTmpl : TmplFields :=
  .cons "greeting" (.str "Hi [name]") (.cons "cta_link" (.str "http://x") .nil)

/-- A contact with a name and a phone number, so the call branch proceeds
all the way to the provider. -/
def bobRow : ContactRow :=
  { email := "bob@x.com"
    name := some "Bob"
    phone := some "+15551234567" }

/-- An `APPROVED` campaign whose single mapped contact is assigned `Call`. -/
def callState : SystemState :=
  { campaign :=
    { name := "camp"
      pipeline_state := .APPROVED
      generated_content := some
        { common := [("Call", callTmpl)]
          contacts := some [("bob@x.com", "Call")] } }
    contactsDb := [bobRow] }

/-- Claim C2: the claim fails on the call channel.  Dispatching `callState`
(call provider succeeding) records exactly one outbound row whose payload is
the *raw* call template — `"Hi [name]"` with the placeholder intact — while
`_substitute` applied to that template and contact yields `"Hi Bob"`; the
two differ, so the recorded call payload is not the substituted deep copy
the spec requires.  The substitution function itself does satisfy the safety
part: a token matching no field is left verbatim (never blanked), shown on a
concrete unmatched token. -/
theorem C2_call_payload_not_substituted :
    ((dispatch_campaign (fun _ _ => some "id") (fun _ _ => some (some "sid"))
        0 callState).1.outbound.map (fun m => (m.message_payload, m.send_status))
      = [(callTmpl, "SENT")])
    ∧ TmplFields.substitute (some bobRow) callState.campaign callTmpl =
        .cons "greeting" (.str "Hi Bob") (.cons "cta_link" (.str "http://x") .nil)
    ∧ callTmpl ≠
        TmplFields.substitute (some bobRow) callState.campaign callTmpl
    ∧ TmplVal.substitute none callState.campaign
        (.str "Hello [unknown token] bye") = .str "Hello [unknown token] bye" := by
  refine ⟨by decide, by decide, by decide, by decide⟩

/-! ## Contact retrieval agent (`contact_retrieval_agent.py`) -/

/-- Python `s.lower()`. -/
def strLower (s : String) : String := String.mk (s.data.map Char.toLower)

/-- Function `_normalize_role_term`: strip, lower-case, then singularize by suffix
stripping (`"es"` when longer than 4, else `"s"` when longer than 3). -/
def normalizeRoleTerm (term : String) : String :=
  let t := strLower (strTrim term)
  if "es".data.isSuffixOf t.data ∧ t.data.length > 4 then
    String.mk (t.data.take (t.data.length - 2))
  else if "s".data.isSuffixOf t.data ∧ t.data.length > 3 then
    String.mk (t.data.take (t.data.length - 1))
  else t

/-- Whether `needle` occurs as a contiguous substring of `hay`. -/
def isSubChars (needle : List Char) : List Char → Bool
  | [] => needle.isEmpty
  | c :: cs => needle.isPrefixOf (c :: cs) || isSubChars needle cs

/-- Condition `LOWER(col) LIKE :param` with `param = "%" ++ needle ++ "%"`: the
lowercased column contains `needle`; a `NULL` column matches nothing. -/
def likeContains (field : Option String) (needle : String) : Bool :=
  match field with
  | none => false
  | some v => isSubChars needle.data (strLower v).data

/-- The `WHERE` clause built by `_build_contact_query`: one condition per
non-empty filter, conjoined.  A role filter with several raw terms becomes a
disjunction of per-term conditions; a single term the one condition — both
are `List.any`. -/
def contactMatches (flt : Filters) (c : ContactRow) : Bool :=
  (flt.role == [] || flt.role.any (fun t => likeContains c.role (normalizeRoleTerm t))) &&
  (flt.location == "" || likeContains c.location (strLower flt.location)) &&
  (flt.category == "" || likeContains c.category (strLower flt.category)) &&
  (flt.company == "" || likeContains c.company (strLower flt.company))

/-- Stable insertion into a descending-by-score list. -/
def insertByScoreDesc (c : ContactRow) : List ContactRow → List ContactRow
  | [] => [c]
  | d :: ds =>
    if d.score < c.score then c :: d :: ds else d :: insertByScoreDesc c ds

/-- Ranking `ORDER BY buying_probability_score DESC NULLS LAST`: selected scores are
coalesced (no nulls), so this is a stable descending sort. -/
def sortByScoreDesc (l : List ContactRow) : List ContactRow :=
  l.foldl (fun acc c => insertByScoreDesc c acc) []

/-- One filtered, ranked query against the contact store. -/
def runContactQuery (store : List ContactRow) (flt : Filters) : List ContactRow :=
  sortByScoreDesc (store.filter (contactMatches flt))

/-- Order of filter relaxation: company → location → category → role. -/
def relaxKeys : List String := ["company", "location", "category", "role"]

/-- Truthiness of `relaxed.get(key)`. -/
def filterTruthy (flt : Filters) : String → Bool
  | "company" => !(flt.company == "")
  | "location" => !(flt.location == "")
  | "category" => !(flt.category == "")
  | "role" => !(flt.role == [])
  | _ => false

/-- Clearing `relaxed[key] = ""`. -/
def clearFilter (flt : Filters) : String → Filters
  | "company" => { flt with company := "" }
  | "location" => { flt with location := "" }
  | "category" => { flt with category := "" }
  | "role" => { flt with role := [] }
  | _ => flt

/-- One iteration of the relaxation loop: skip when contacts were already
found (the loop broke) or the key's filter is already empty; otherwise clear
the filter and re-query. -/
def relaxStep (store : List ContactRow) (st : Filters × List ContactRow)
    (key : String) : Filters × List ContactRow :=
  if !st.2.isEmpty then st
  else if !(filterTruthy st.1 key) then st
  else
    let relaxed := clearFilter st.1 key
    (relaxed, runContactQuery store relaxed)

/-- Function `run_contact_retrieval_agent`, the query part: filtered query, then the
relaxation loop when it came back empty, then the unconditional top-50
fallback. -/
def retrieveContacts (store : List ContactRow) (flt : Filters) : List ContactRow :=
  let contacts := runContactQuery store flt
  let contacts :=
    if contacts.isEmpty then (relaxKeys.foldl (relaxStep store) (flt, [])).2
    else contacts
  if contacts.isEmpty then (sortByScoreDesc store).take 50 else contacts

lemma length_insertByScoreDesc (c : ContactRow) (l : List ContactRow) :
    (insertByScoreDesc c l).length = l.length + 1 := by
  induction l with
  | nil => rfl
  | cons d ds ih =>
    simp only [insertByScoreDesc]
    split <;> simp [ih]

lemma length_foldl_insert (l : List ContactRow) :
    ∀ acc, (l.foldl (fun a c => insertByScoreDesc c a) acc).length =
      acc.length + l.length := by
  induction l with
  | nil => simp
  | cons c cs ih =>
    intro acc
    simp only [List.foldl_cons]
    rw [ih (insertByScoreDesc c acc), length_insertByScoreDesc]
    simp [List.length_cons]
    omega

lemma length_sortByScoreDesc (l : List ContactRow) :
    (sortByScoreDesc l).length = l.length := by
  simpa using length_foldl_insert l []

/-- Claim C8 (retrieval never-empty): for every non-empty contact store and
every filter combination, retrieval returns at least one contact — when the
filtered query and every relaxation re-query return nothing, the
unconditional fallback returns the top 50 contacts by descending score,
which is non-empty. -/
theorem C8_retrieval_never_empty (store : List ContactRow) (flt : Filters)
    (hne : store ≠ []) : retrieveContacts store flt ≠ [] := by
  have hsorted : sortByScoreDesc store ≠ [] := by
    intro h
    apply hne
    have := length_sortByScoreDesc store
    rw [h] at this
    exact List.length_eq_zero.mp this.symm
  have htake : (sortByScoreDesc store).take 50 ≠ [] := by
    cases hs : sortByScoreDesc store with
    | nil => exact absurd hs hsorted
    | cons a as => simp [List.take]
  simp only [retrieveContacts]
  by_cases c1 : (runContactQuery store flt).isEmpty
  · rw [if_pos c1]
    by_cases c2 : ((relaxKeys.foldl (relaxStep store) (flt, [])).2).isEmpty
    · rw [if_pos c2]
      exact htake
    · rw [if_neg c2]
      simpa using c2
  · rw [if_neg c1, if_neg c1]
    simpa using c1

/-- Witness for C8: a one-contact store with a filter matching nothing. -/
theorem C8_retrieval_never_empty_witness :
    ([({ email := "a@x.com", company := some "Acme" } : ContactRow)] ≠
        ([] : List ContactRow))
    ∧ retrieveContacts [{ email := "a@x.com", company := some "Acme" }]
        { company := "zzz-no-such-company" } ≠ [] :=
  ⟨by decide,
   C8_retrieval_never_empty [{ email := "a@x.com", company := some "Acme" }]
     { company := "zzz-no-such-company" } (by decide)⟩

/-! ## Approval websocket (`app/api/websocket.py`)

The session is embedded as a function of the incoming client actions: the
list of actions the client will send, in order.  Reaching the end of the
list while the loop still awaits an action is the client disconnect
(`WebSocketDisconnect` on `receive_text`).  An uncaught exception inside the
loop (`KeyError` from subscripting `generated_content[contact_email]`, or
`AttributeError` from formatting a `None` prompt template) is the
`INTERNAL_ERROR` path: the session closes with no further state change.
The asynchronous dispatch trigger fired after full approval runs in its own
session and is modelled as the separate `dispatch_campaign` operation. -/

def CHANNEL_ORDER : List String := ["Email", "LinkedIn", "Call"]

/-- A client action: `approve`, `approve_all`, `edit` (with the
`edited_content` payload, `none` when absent or falsy), `regenerate`, or
anything else (unknown action values and malformed JSON both produce a
typed error and leave the loop waiting). -/
inductive WsAction where
  | approve
  | approveAll
  | edit (edited_content : Option TmplVal)
  | regenerate
  | unknown (action : String)
deriving DecidableEq, Repr

/-- How an embedded session ended. -/
inductive SessionOutcome where
  | completed
  | disconnected
  | errored
  | rejected
deriving DecidableEq, Repr

/-- The per-contact entries the websocket walks: the `"personalized"` value
when that key exists, otherwise the non-reserved top-level keys. -/
def personalizedSrc (b : Bundle) : List (String × PersonEntry) :=
  match b.personalized with
  | some m => m
  | none => b.topLevel

/-- The channel bucket of one entry: its channel (default `"Email"`),
redirected to `"Email"` when not one of the three known groups. -/
def groupFor (e : String × PersonEntry) : String :=
  let ch := (e.2.channel).getD "Email"
  if CHANNEL_ORDER.contains ch then ch else "Email"

/-- Contacts grouped and flattened in channel order Email → LinkedIn → Call. -/
def orderedEmails (ps : List (String × PersonEntry)) : List String :=
  (CHANNEL_ORDER.map (fun ch =>
    (ps.filter (fun e => groupFor e == ch)).map Prod.fst)).flatten

/-- Assignment `generated_content[contact_email]["content"] = v` on the top level. -/
def setPersonContent (m : List (String × PersonEntry)) (k : String)
    (v : TmplVal) : List (String × PersonEntry) :=
  m.map (fun p => if p.1 = k then (p.1, { p.2 with content := some v }) else p)

/-- Close-out after the loop: campaign → `APPROVED` with approver identity
and time stamped, mirrored onto every run of the campaign. -/
def finalizeApproval (user : String) (now : Nat) (s : SystemState) :
    SessionOutcome × SystemState :=
  (.completed,
   { s with
     campaign := { s.campaign with
       pipeline_state := .APPROVED
       approval_status := "APPROVED"
       approved_by := some user
       approved_at := some now }
     runs := s.runs.map (fun r => { r with state := .APPROVED }) })

/-- Persist a mutated bundle onto the campaign row. -/
def persistBundle (s : SystemState) (gc : Bundle) : SystemState :=
  { s with campaign := { s.campaign with generated_content := some gc } }

/-- The review loop of `campaign_approval_ws`: one pending item at a time,
blocking on the next client action; `edit`, `regenerate` and unknown
actions stay on the current item, `approve` advances, `approve_all`
finishes, exhausted actions disconnect, and a `KeyError` on the top-level
subscript ends the session through the `INTERNAL_ERROR` handler. -/
def sessLoop (regen : String → Option TmplVal) (user : String) (now : Nat) :
    SystemState → Bundle → List String → List WsAction →
    SessionOutcome × SystemState
  | s, _, [], _ => finalizeApproval user now s
  | s, _, _ :: _, [] => (.disconnected, s)
  | s, gc, e :: rest, a :: more =>
    match a with
    | .approve => sessLoop regen user now s gc rest more
    | .approveAll => finalizeApproval user now s
    | .edit ec =>
      match ec with
      | some content =>
        match alistGet? gc.topLevel e with
        | none => (.errored, s)
        | some _ =>
          let gc' := { gc with topLevel := setPersonContent gc.topLevel e content }
          sessLoop regen user now (persistBundle s gc') gc' (e :: rest) more
      | none =>
        match alistGet? gc.topLevel e with
        | none => (.errored, s)
        | some _ => sessLoop regen user now s gc (e :: rest) more
    | .regenerate =>
      match s.contactsDb.find? (fun c => c.email = e) with
      | some _ =>
        match alistGet? gc.topLevel e with
        | none => (.errored, s)
        | some entry =>
          let channel := entry.channel.getD "Email"
          if CHANNEL_ORDER.contains channel then
            match regen e with
            | some content =>
              let gc' := { gc with topLevel := setPersonContent gc.topLevel e content }
              sessLoop regen user now (persistBundle s gc') gc' (e :: rest) more
            | none => sessLoop regen user now s gc (e :: rest) more
          else (.errored, s)
      | none =>
        match alistGet? gc.topLevel e with
        | none => (.errored, s)
        | some _ => sessLoop regen user now s gc (e :: rest) more
    | .unknown _ => sessLoop regen user now s gc (e :: rest) more

/-- Endpoint `campaign_approval_ws`: state guard (the not-found guard has
no counterpart, the embedded state carries the campaign), item ordering,
then the loop. -/
def approvalSession (regen : String → Option TmplVal) (user : String)
    (now : Nat) (acts : List WsAction) (s : SystemState) :
    SessionOutcome × SystemState :=
  if s.campaign.pipeline_state ≠ .AWAITING_APPROVAL then (.rejected, s)
  else
    let gc := s.campaign.generated_content.getD {}
    sessLoop regen user now s gc (orderedEmails (personalizedSrc gc)) acts

/-- Approving every pending item runs the loop to completion on an
unchanged state. -/
lemma sessLoop_all_approve (regen : String → Option TmplVal) (user : String)
    (now : Nat) (s : SystemState) (gc : Bundle) (items : List String) :
    sessLoop regen user now s gc items (List.replicate items.length .approve) =
      finalizeApproval user now s := by
  induction items with
  | nil => rfl
  | cons e rest ih => simpa [List.replicate, sessLoop] using ih

/-- Fewer approvals than pending items: the loop runs out of client actions
and the disconnect path returns with the state untouched. -/
lemma sessLoop_disconnect (regen : String → Option TmplVal) (user : String)
    (now : Nat) (s : SystemState) (gc : Bundle) (items : List String)
    (m : Nat) (hm : m < items.length) :
    sessLoop regen user now s gc items (List.replicate m .approve) =
      (.disconnected, s) := by
  induction items generalizing m with
  | nil => simp at hm
  | cons e rest ih =>
    cases m with
    | zero => rfl
    | succ m' => simpa [List.replicate, sessLoop] using ih m' (by simpa using hm)

/-- Claim C4 (approval completeness): on a campaign in `AWAITING_APPROVAL`, a
session whose client approves every pending review item completes: the
campaign transitions to `APPROVED` with approver identity and approval time
stamped; and a session that disconnects mid-review (the client sends only
`m <` number-of-items approvals and then drops) ends with the state exactly
as it was, in particular still `AWAITING_APPROVAL`. -/
theorem C4_approval_completeness (regen : String → Option TmplVal)
    (user : String) (now : Nat) (s : SystemState)
    (h : s.campaign.pipeline_state = .AWAITING_APPROVAL) :
    ((approvalSession regen user now
        (List.replicate (orderedEmails (personalizedSrc
          (s.campaign.generated_content.getD {}))).length .approve) s).1 =
        .completed
      ∧ (approvalSession regen user now
          (List.replicate (orderedEmails (personalizedSrc
            (s.campaign.generated_content.getD {}))).length .approve)
          s).2.campaign.pipeline_state = .APPROVED
      ∧ (approvalSession regen user now
          (List.replicate (orderedEmails (personalizedSrc
            (s.campaign.generated_content.getD {}))).length .approve)
          s).2.campaign.approved_by = some user
      ∧ (approvalSession regen user now
          (List.replicate (orderedEmails (personalizedSrc
            (s.campaign.generated_content.getD {}))).length .approve)
          s).2.campaign.approved_at = some now)
    ∧ (∀ m, m < (orderedEmails (personalizedSrc
          (s.campaign.generated_content.getD {}))).length →
        approvalSession regen user now (List.replicate m .approve) s =
          (.disconnected, s) ∧ s.campaign.pipeline_state = .AWAITING_APPROVAL) := by
  constructor
  · rw [approvalSession, if_neg (by simp [h])]
    rw [sessLoop_all_approve]
    exact ⟨rfl, rfl, rfl, rfl⟩
  · intro m hm
    rw [approvalSession, if_neg (by simp [h])]
    exact ⟨sessLoop_disconnect regen user now s _ _ m hm, h⟩

/-- A two-item personalized bundle for exercising the approval loop. -/
def wsBundle : Bundle :=
  { common := [("Email", .cons "subject" (.str "s") .nil)]
    personalized := some
      [("a@x.com", { channel := some "Email", content := some (.str "hi") }),
       ("b@x.com", { channel := some "Call", content := some (.str "script") })] }

/-- A campaign awaiting approval with `wsBundle`. -/
def wsState : SystemState :=
  { campaign :=
    { name := "camp"
      pipeline_state := .AWAITING_APPROVAL
      generated_content := some wsBundle } }

/-- Witness for C4 on `wsState` (two review items). -/
theorem C4_approval_completeness_witness :
    (wsState.campaign.pipeline_state = PState.AWAITING_APPROVAL)
    ∧ (approvalSession (fun _ => none) "rev@x.com" 7
        (List.replicate (orderedEmails (personalizedSrc
          (wsState.campaign.generated_content.getD {}))).length .approve)
        wsState).2.campaign.pipeline_state = .APPROVED
    ∧ approvalSession (fun _ => none) "rev@x.com" 7
        (List.replicate 1 .approve) wsState = (.disconnected, wsState) :=
  ⟨by decide,
   ((C4_approval_completeness (fun _ => none) "rev@x.com" 7 wsState
      (by decide)).1).2.1,
   ((C4_approval_completeness (fun _ => none) "rev@x.com" 7 wsState
      (by decide)).2 1 (by decide)).1⟩

/-! ## C3: the `edit` action -/

/-- The bundle shape the content generator persists (`"common"` +
`"personalized"`, nothing at the top level), with one item under review. -/
def editState : SystemState :=
  { campaign :=
    { name := "camp"
      pipeline_state := .AWAITING_APPROVAL
      generated_content := some
        { common := [("Email", .cons "subject" (.str "s") .nil)]
          personalized := some
            [("a@x.com", { channel := some "Email", content := some (.str "old") })] } } }

/-- The legacy bundle shape (entries at the top level) the `edit` handler
was written against. -/
def legacyState : SystemState :=
  { campaign :=
    { name := "camp"
      pipeline_state := .AWAITING_APPROVAL
      generated_content := some
        { topLevel :=
            [("a@x.com", { channel := some "Email", content := some (.str "old") })] } } }

/-- Claim C3: on the bundle the current content generator persists (entries
under `"personalized"`), an `edit` action subscripts the missing top-level
key, raises `KeyError`, and the session terminates through the
`INTERNAL_ERROR` path with nothing persisted — the edit neither replaces
the stored content nor lets the session continue.  On the legacy top-level
shape the handler was written for, the same edit does behave as the claim
says: the content is replaced and persisted, the loop does not advance, and
the session keeps waiting for the reviewer (here: disconnects once the
action list ends) with the campaign still `AWAITING_APPROVAL`. -/
theorem C3_edit_terminates_session_on_generated_bundle :
    (approvalSession (fun _ => none) "rev@x.com" 5 [.edit (some (.str "new"))]
        editState = (.errored, editState))
    ∧ (approvalSession (fun _ => none) "rev@x.com" 5 [.edit (some (.str "new"))]
        legacyState).1 = .disconnected
    ∧ (approvalSession (fun _ => none) "rev@x.com" 5 [.edit (some (.str "new"))]
        legacyState).2.campaign.generated_content = some
        { topLevel :=
            [("a@x.com", { channel := some "Email", content := some (.str "new") })] }
    ∧ (approvalSession (fun _ => none) "rev@x.com" 5 [.edit (some (.str "new"))]
        legacyState).2.campaign.pipeline_state = .AWAITING_APPROVAL := by
  refine ⟨by decide, by decide, by decide, by decide⟩

/-! ## Content generator agent (`content_generator_agent.py`) -/

/-- Python `str(x)` for an optional numeric read back from JSON:
`None` renders as `"None"`. -/
def pyStrOptRat : Option ℚ → String
  | none => "None"
  | some q => ratStr q

/-- Python `str(x)` for an optional string value. -/
def pyStrOpt : Option String → String
  | none => "None"
  | some s => s

/-- The per-contact substitution pairs of the personalization step, as the
source builds them: `contact.get("name", "")` (and role / company) on a
dict that always carries the key yields the raw column value — Python
`None` when the column is NULL — while the engagement rates and the
preferred time go through `str(...)` and are always strings. -/
def persPairs (c : ContactRow) : List (String × Option String) :=
  [("[CONTACT_NAME]", c.name),
   ("[CONTACT_ROLE]", c.role),
   ("[CONTACT_COMPANY]", c.company),
   ("[EMAIL_CLICK_RATE]", some (pyStrOptRat c.emailclickrate)),
   ("[LINKEDIN_CLICK_RATE]", some (pyStrOptRat c.linkedinclickrate)),
   ("[CALL_ANSWER_RATE]", some (pyStrOptRat c.callanswerrate)),
   ("[PREFERRED_TIME]", some (pyStrOpt c.preferredtime))]

/-- Python `v.replace(placeholder, value)`: raises `TypeError` when `value`
is `None`, even when the placeholder does not occur in `v`; `none` here is
that exception. -/
def pyReplace (s pat : String) (value : Option String) : Option String :=
  match value with
  | none => none
  | some v => some (strReplace s pat v)

/-- Fold one string field through the substitution pairs in order, stopping
at the `TypeError` the first `None` value raises. -/
def persFoldStr (pairs : List (String × Option String)) (s : String) :
    Option String :=
  pairs.foldl (fun acc q => acc.bind (fun v => pyReplace v q.1 q.2)) (some s)

/-- Walk the template fields in order: every *top-level* string field has
each placeholder replaced in sequence (the loop iterates
`personalized.items()` one level deep, unlike `_substitute`); the first
string field aborts the walk when a substitution value is `None`. -/
def personalizeFields (c : ContactRow) :
    List (String × TmplVal) → Option (List (String × TmplVal))
  | [] => some []
  | (k, .str s) :: rest =>
    match persFoldStr (persPairs c) s with
    | none => none
    | some s' =>
      (personalizeFields c rest).map (fun fs => (k, TmplVal.str s') :: fs)
  | (k, v) :: rest =>
    (personalizeFields c rest).map (fun fs => (k, v) :: fs)

/-- Personalize one common template for one contact; `none` is the
propagated `TypeError` (a contact with a NULL name, role or company and a
template with at least one string field). -/
def personalizeTemplate (c : ContactRow) (t : TmplFields) : Option TmplFields :=
  (personalizeFields c t.toList).map TmplFields.ofList

/-! ## Pipeline orchestrator (`pipeline_runner.execute_pipeline`)

Stage oracles: `classifyResult` is the classification outcome (the agent
swallows every generator failure into the all-empty-filters fallback and
always reaches `CLASSIFIED`, so it never aborts the pipeline);
`gen ch` is the common template the generator returns for a channel;
the three `...Fails` flags make the corresponding stage raise (covering
generator failures where they propagate, and unexpected store errors).
The prompt-parsing agent patches only free-text campaign fields, swallows
its failures and never touches lifecycle state, so it is elided. -/

structure PipelineEnv where
  classifyResult : Filters := {}
  gen : String → TmplFields := fun _ => .nil
  retrievalFails : Bool := false
  channelFails : Bool := false
  contentFails : Bool := false
  emailSend : String → TmplFields → Option String := fun _ _ => none
  callSend : String → String → Option (Option String) := fun _ _ => none

/-- Update the run created by the current invocation (the last one), the
`UPDATE pipeline_runs WHERE id = pipeline_run.id`. -/
def updLastRun (f : RunRec → RunRec) : List RunRec → List RunRec
  | [] => []
  | [r] => [f r]
  | r :: rs => r :: updLastRun f rs

def updateLastRun (f : RunRec → RunRec) (s : SystemState) : SystemState :=
  { s with runs := updLastRun f s.runs }

/-- The run row this invocation is updating. -/
def currentRun (s : SystemState) : RunRec := (s.runs.getLast?).getD {}

/-- Function `run_classification_agent` as seen by the orchestrator: persist the
filters and move both run and campaign to `CLASSIFIED`. -/
def runClassificationStage (flt : Filters) (s : SystemState) : SystemState :=
  let s := updateLastRun (fun r =>
    { r with classification_summary := some flt, state := .CLASSIFIED }) s
  { s with campaign := { s.campaign with pipeline_state := .CLASSIFIED } }

/-- Function `run_contact_retrieval_agent`: query the store with the persisted
filters (three-tier fallback) and move to `CONTACTS_RETRIEVED`. -/
def runRetrievalStage (s : SystemState) : SystemState :=
  let flt := ((currentRun s).classification_summary).getD {}
  let contacts := retrieveContacts s.contactsDb flt
  let s := updateLastRun (fun r =>
    { r with contacts := some contacts, state := .CONTACTS_RETRIEVED }) s
  { s with campaign := { s.campaign with pipeline_state := .CONTACTS_RETRIEVED } }

/-- Function `run_channel_decision_agent`: decide a channel per contact with a
non-empty email and move to `CHANNEL_DECIDED`. -/
def runChannelDecisionStage (s : SystemState) : SystemState :=
  let contacts := ((currentRun s).contacts).getD []
  let cmap := contacts.filterMap (fun c =>
    if c.email = "" then none else some (c.email, decideChannel c))
  let s := updateLastRun (fun r =>
    { r with channel_map := some cmap, state := .CHANNEL_DECIDED }) s
  { s with campaign := { s.campaign with pipeline_state := .CHANNEL_DECIDED } }

/-- The per-contact loop of `run_content_generator_agent` over the retrieved
contacts: skip a contact with no email or whose assigned channel has no (or
a falsy) template; personalize the rest in order; the `TypeError` raised on
the first problematic contact aborts the loop (`none`). -/
def genEntries (cmap : List (String × String))
    (common : List (String × TmplFields)) :
    List ContactRow → Option (List (String × PersonEntry))
  | [] => some []
  | c :: rest =>
    if c.email = "" then genEntries cmap common rest
    else
      let channel := (alistGet? cmap c.email).getD "Email"
      match alistGet? common channel with
      | none => genEntries cmap common rest
      | some t =>
        if t = .nil then genEntries cmap common rest
        else
          match personalizeTemplate c t with
          | none => none
          | some pt =>
            (genEntries cmap common rest).map (fun es =>
              (c.email,
               ({ channel := some channel
                  content := some (.dict pt) } : PersonEntry)) :: es)

/-- Function `run_content_generator_agent`: one common template per channel
(all three, regardless of assignments), one personalized entry per contact
whose assigned channel has a truthy template; the persisted bundle carries
the `"common"` and `"personalized"` keys — and no `"contacts"` key.
Returns `none` when the personalization loop raises `TypeError` (NULL
name/role/company meeting a string template field): the stage then persists
nothing and the exception propagates to the orchestrator. -/
def runContentGenerationStage (gen : String → TmplFields) (s : SystemState) :
    Option SystemState :=
  let contacts := ((currentRun s).contacts).getD []
  let cmap := ((currentRun s).channel_map).getD []
  let common := [("Email", gen "Email"), ("LinkedIn", gen "LinkedIn"),
                 ("Call", gen "Call")]
  match genEntries cmap common contacts with
  | none => none
  | some entries =>
    let bundle : Bundle :=
      { common := common, contacts := none, personalized := some entries }
    let s := updateLastRun (fun r => { r with state := .CONTENT_GENERATED }) s
    some { s with campaign := { s.campaign with
      generated_content := some bundle
      pipeline_state := .CONTENT_GENERATED } }

/-- The `except` path of `execute_pipeline`: roll back, write `FAILED` with
the error message to the campaign and to its runs, and clear the lock. -/
def failPipeline (now : Nat) (err : String) (s : SystemState) : SystemState :=
  { s with
    campaign := { s.campaign with pipeline_state := .FAILED, pipeline_locked := false }
    runs := s.runs.map (fun r =>
      { r with state := .FAILED, completed_at := some now, error_message := some err }) }

/-- Function `execute_pipeline`: lock guard, lock acquisition, run creation, the four
stages in order (content generation may also abort with the personalization
`TypeError`, which the orchestrator records like any stage exception), the
approval branch, and the auto-dispatch follow-on when approval is not
required.  Returns the new state and the list of campaign lifecycle states
written, in order. -/
def executePipeline (env : PipelineEnv) (now : Nat) (s : SystemState) :
    SystemState × List PState :=
  if s.campaign.pipeline_locked then (s, [])
  else
    let s := { s with campaign := { s.campaign with pipeline_locked := true } }
    let s := { s with runs := s.runs ++ [{ runId := s.runs.length, state := .CREATED }] }
    let s := runClassificationStage env.classifyResult s
    if env.retrievalFails then (failPipeline now "retrieval" s, [.CLASSIFIED, .FAILED])
    else
      let s := runRetrievalStage s
      if env.channelFails then
        (failPipeline now "channel-decision" s,
         [.CLASSIFIED, .CONTACTS_RETRIEVED, .FAILED])
      else
        let s := runChannelDecisionStage s
        if env.contentFails then
          (failPipeline now "content-generation" s,
           [.CLASSIFIED, .CONTACTS_RETRIEVED, .CHANNEL_DECIDED, .FAILED])
        else
          match runContentGenerationStage env.gen s with
          | none =>
            (failPipeline now "content-generation: TypeError" s,
             [.CLASSIFIED, .CONTACTS_RETRIEVED, .CHANNEL_DECIDED, .FAILED])
          | some s =>
            let appr := s.campaign.approval_required
            let next := if appr then PState.AWAITING_APPROVAL
                        else PState.APPROVED
            let s := { s with campaign := { s.campaign with
              pipeline_state := next, pipeline_locked := false } }
            let s := updateLastRun (fun r =>
              { r with state := next, completed_at := some now }) s
            if appr then
              (s, [.CLASSIFIED, .CONTACTS_RETRIEVED, .CHANNEL_DECIDED,
                   .CONTENT_GENERATED, .AWAITING_APPROVAL])
            else
              let d := dispatch_campaign env.emailSend env.callSend now s
              (d.1, [.CLASSIFIED, .CONTACTS_RETRIEVED, .CHANNEL_DECIDED,
                     .CONTENT_GENERATED, .APPROVED] ++ d.2)

/-! ## C1: the end-to-end auto-dispatch scenario (spec §8) -/

/-- Contact A: engages by email (0.9); name, role and company populated so
the personalization step succeeds. -/
def rowA : ContactRow :=
  { email := "a@x.com"
    name := some "Alice"
    role := some "CTO"
    company := some "Acme"
    emailclickrate := some (mkRat 9 10) }

/-- Contact B: only a call-answer score (0.6), with a phone number; name,
role and company populated. -/
def rowB : ContactRow :=
  { email := "b@x.com"
    name := some "Bob"
    role := some "Head of Sales"
    company := some "Globex"
    callanswerrate := some (mkRat 6 10)
    phone := some "+15550000001" }

/-- Contact C: no engagement scores at all; name, role and company
populated. -/
def rowC : ContactRow :=
  { email := "c@x.com"
    name := some "Carol"
    role := some "Engineer"
    company := some "Initech" }

/-- Stage oracles for the scenario: classification yields empty filters, the
generator returns a template with placeholders for every channel, and both
providers succeed. -/
def scenarioEnv : PipelineEnv :=
  { gen := fun _ =>
      .cons "subject" (.str "Hello [CONTACT_NAME]")
        (.cons "body" (.str "See [product_link]") .nil)
    emailSend := fun _ _ => some "mid-1"
    callSend := fun _ _ => some (some "sid-1") }

/-- A fresh campaign with `approval_required = false` over the three
contacts. -/
def scenarioState : SystemState :=
  { campaign := { name := "camp", approval_required := false }
    contactsDb := [rowA, rowB, rowC] }

/-- Evidence that the embedded personalization reproduces the source's
`TypeError` path: a contact whose role and company columns are NULL meets
the string fields of the generated template, `str.replace` receives `None`,
and the run ends `FAILED` after channel decision, with no content
persisted. -/
lemma content_generation_type_error_example :
    (executePipeline scenarioEnv 0
      { campaign := { name := "camp", approval_required := false }
        contactsDb := [{ email := "d@x.com", name := some "Dana" }] }).2 =
      [.CLASSIFIED, .CONTACTS_RETRIEVED, .CHANNEL_DECIDED, .FAILED]
    ∧ (executePipeline scenarioEnv 0
      { campaign := { name := "camp", approval_required := false }
        contactsDb := [{ email := "d@x.com", name := some "Dana" }] }).1.campaign.pipeline_state
      = .FAILED := by
  refine ⟨by decide, by decide⟩

/-- Claim C1: the §8 scenario fails on the code.  The three contacts carry
full name/role/company data, so the personalization step succeeds; channel
decision assigns `{A: Email, B: Call, C: Email}` and content generation
produces all three common templates — but it persists the contact→channel
map under `"personalized"` and writes no `"contacts"` key, while the
dispatcher reads `generated_content["contacts"]`.  The auto-dispatch
therefore finds no contacts and returns without sending: the run ends with
zero Outbound Message rows and the campaign left `APPROVED`, not
`COMPLETED`, and no `DISPATCHED`/`COMPLETED` states are ever written. -/
theorem C1_auto_dispatch_sends_nothing :
    ((executePipeline scenarioEnv 0 scenarioState).1.campaign.pipeline_state =
        .APPROVED)
    ∧ (executePipeline scenarioEnv 0 scenarioState).1.outbound = []
    ∧ (executePipeline scenarioEnv 0 scenarioState).2 =
        [.CLASSIFIED, .CONTACTS_RETRIEVED, .CHANNEL_DECIDED,
         .CONTENT_GENERATED, .APPROVED]
    ∧ (currentRun (executePipeline scenarioEnv 0 scenarioState).1).channel_map =
        some [("a@x.com", "Email"), ("b@x.com", "Call"), ("c@x.com", "Email")]
    ∧ ((executePipeline scenarioEnv 0 scenarioState).1.campaign.generated_content.getD
        {}).contacts = none
    ∧ (((executePipeline scenarioEnv 0 scenarioState).1.campaign.generated_content.getD
        {}).personalized.map (List.map Prod.fst)) =
        some ["a@x.com", "b@x.com", "c@x.com"] := by
  refine ⟨by decide, by decide, by decide, by decide, by decide, by decide⟩

/-! ## C5: lifecycle monotonicity over operation sequences -/

/-- One core operation on a campaign: an orchestrator run, an approval
session, or a dispatch call. -/
inductive CoreOp where
  | runPipeline (env : PipelineEnv) (now : Nat)
  | approveSession (regen : String → Option TmplVal) (user : String)
      (now : Nat) (acts : List WsAction)
  | dispatchCall (emailSend : String → TmplFields → Option String)
      (callSend : String → String → Option (Option String)) (now : Nat)

/-- Apply one operation; the second component is the list of campaign
lifecycle states it writes, in order (an approval session writes `APPROVED`
exactly when it completes). -/
def applyOp : CoreOp → SystemState → SystemState × List PState
  | .runPipeline env now, s => executePipeline env now s
  | .approveSession regen user now acts, s =>
    let r := approvalSession regen user now acts s
    (r.2, if r.1 = .completed then [.APPROVED] else [])
  | .dispatchCall emailSend callSend now, s =>
    dispatch_campaign emailSend callSend now s

/-- All lifecycle states written by a sequence of operations. -/
def stateWrites (s : SystemState) : List CoreOp → List PState
  | [] => []
  | op :: ops => (applyOp op s).2 ++ stateWrites (applyOp op s).1 ops

/-- The sequence of lifecycle states observed over time: the initial state
followed by every written state. -/
def observedStates (s : SystemState) (ops : List CoreOp) : List PState :=
  s.campaign.pipeline_state :: stateWrites s ops

/-- The final state of a sequence of operations. -/
def applyOps (s : SystemState) : List CoreOp → SystemState
  | [] => s
  | op :: ops => applyOps (applyOp op s).1 ops

/-- The restriction the counterexample forces on the claim: the
orchestrator is only invoked while the campaign is in `CREATED` state
(i.e. no re-run of an already-advanced campaign). -/
def runsOnlyFromCreated (s : SystemState) : List CoreOp → Prop
  | [] => True
  | op :: ops =>
    (match op with
     | .runPipeline _ _ => s.campaign.pipeline_state = .CREATED
     | _ => True)
    ∧ runsOnlyFromCreated (applyOp op s).1 ops

/-- A fresh approval-gated campaign over an empty store. -/
def cexState : SystemState := { campaign := { name := "camp" } }

/-- Claim C5, counterexample: running the orchestrator twice on the same
campaign — its precondition (exists, not locked) admits the second run —
observes the state sequence CREATED → ... → AWAITING_APPROVAL → CLASSIFIED
→ ..., and the AWAITING_APPROVAL → CLASSIFIED step moves backward without
being a transition to FAILED, refuting the claim as stated. -/
theorem C5_counterexample :
    observedStates cexState
        [.runPipeline {} 0, .runPipeline {} 1] =
      [.CREATED, .CLASSIFIED, .CONTACTS_RETRIEVED, .CHANNEL_DECIDED,
       .CONTENT_GENERATED, .AWAITING_APPROVAL,
       .CLASSIFIED, .CONTACTS_RETRIEVED, .CHANNEL_DECIDED,
       .CONTENT_GENERATED, .AWAITING_APPROVAL]
    ∧ ¬ List.Chain' stepOk (observedStates cexState
        [.runPipeline {} 0, .runPipeline {} 1]) := by
  have h1 : observedStates cexState [.runPipeline {} 0, .runPipeline {} 1] =
      [.CREATED, .CLASSIFIED, .CONTACTS_RETRIEVED, .CHANNEL_DECIDED,
       .CONTENT_GENERATED, .AWAITING_APPROVAL,
       .CLASSIFIED, .CONTACTS_RETRIEVED, .CHANNEL_DECIDED,
       .CONTENT_GENERATED, .AWAITING_APPROVAL] := by decide
  refine ⟨h1, ?_⟩
  rw [h1]
  intro h
  simp only [List.chain'_cons] at h
  exact absurd h.2.2.2.2.2.1 (by decide)

/-- Shape of a dispatch call: either nothing is written and the state is
unchanged, or the campaign was `APPROVED` and the call writes
`DISPATCHED, COMPLETED`, ending `COMPLETED`. -/
lemma dispatch_shape (emailSend : String → TmplFields → Option String)
    (callSend : String → String → Option (Option String)) (now : Nat)
    (s : SystemState) :
    ((dispatch_campaign emailSend callSend now s).2 = []
      ∧ (dispatch_campaign emailSend callSend now s).1.campaign.pipeline_state =
        s.campaign.pipeline_state)
    ∨ ((dispatch_campaign emailSend callSend now s).2 = [.DISPATCHED, .COMPLETED]
      ∧ s.campaign.pipeline_state = .APPROVED
      ∧ (dispatch_campaign emailSend callSend now s).1.campaign.pipeline_state =
        .COMPLETED) := by
  simp only [dispatch_campaign]
  split_ifs with h1 h2 h3
  · exact Or.inl ⟨rfl, rfl⟩
  · exact Or.inl ⟨rfl, rfl⟩
  · exact Or.inl ⟨rfl, rfl⟩
  · exact Or.inr ⟨rfl, by simpa using h1, rfl⟩

/-- The review loop never touches the lifecycle state except through the
close-out, which sets `APPROVED`. -/
lemma sessLoop_pipeline_state (regen : String → Option TmplVal) (user : String)
    (now : Nat) :
    ∀ (acts : List WsAction) (s : SystemState) (gc : Bundle)
      (items : List String),
      ((sessLoop regen user now s gc items acts).1 = .completed ∧
        (sessLoop regen user now s gc items acts).2.campaign.pipeline_state =
          .APPROVED)
      ∨ ((sessLoop regen user now s gc items acts).1 ≠ .completed ∧
        (sessLoop regen user now s gc items acts).2.campaign.pipeline_state =
          s.campaign.pipeline_state) := by
  intro acts
  induction acts with
  | nil =>
    intro s gc items
    cases items with
    | nil => exact Or.inl ⟨rfl, rfl⟩
    | cons e rest => exact Or.inr ⟨by simp [sessLoop], rfl⟩
  | cons a more ih =>
    intro s gc items
    cases items with
    | nil => exact Or.inl ⟨rfl, rfl⟩
    | cons e rest =>
      cases a with
      | approve => exact ih s gc rest
      | approveAll => exact Or.inl ⟨rfl, rfl⟩
      | edit ec =>
        cases ec with
        | some content =>
          simp only [sessLoop]
          cases hk : alistGet? gc.topLevel e with
          | none => exact Or.inr ⟨by simp, rfl⟩
          | some entry =>
            simpa using ih (persistBundle s
              { gc with topLevel := setPersonContent gc.topLevel e content })
              { gc with topLevel := setPersonContent gc.topLevel e content }
              (e :: rest)
        | none =>
          simp only [sessLoop]
          cases hk : alistGet? gc.topLevel e with
          | none => exact Or.inr ⟨by simp, rfl⟩
          | some entry => simpa using ih s gc (e :: rest)
      | regenerate =>
        simp only [sessLoop]
        cases hc : s.contactsDb.find? (fun c => c.email = e) with
        | none =>
          cases hk : alistGet? gc.topLevel e with
          | none => exact Or.inr ⟨by simp, rfl⟩
          | some entry => simpa using ih s gc (e :: rest)
        | some c =>
          cases hk : alistGet? gc.topLevel e with
          | none => exact Or.inr ⟨by simp, rfl⟩
          | some entry =>
            dsimp only
            by_cases hch : CHANNEL_ORDER.contains (entry.channel.getD "Email")
            · rw [if_pos hch]
              cases hr : regen e with
              | none => simpa using ih s gc (e :: rest)
              | some content =>
                simpa using ih (persistBundle s
                  { gc with topLevel := setPersonContent gc.topLevel e content })
                  { gc with topLevel := setPersonContent gc.topLevel e content }
                  (e :: rest)
            · rw [if_neg hch]
              exact Or.inr ⟨by simp, rfl⟩
      | unknown a => exact ih s gc (e :: rest)

/-- Precondition of the amended monotonicity claim for one operation:
orchestrator runs start from `CREATED`; sessions and dispatch calls are
unrestricted. -/
def opPre : CoreOp → SystemState → Prop
  | .runPipeline _ _, s => s.campaign.pipeline_state = .CREATED
  | _, _ => True

/-- Each operation writes a forward-or-`FAILED` chain of states starting at
the current state, and ends in the last state it wrote (or unchanged). -/
lemma applyOp_trace (op : CoreOp) (s : SystemState) (h : opPre op s) :
    List.Chain' stepOk (s.campaign.pipeline_state :: (applyOp op s).2)
    ∧ (applyOp op s).1.campaign.pipeline_state =
      ((applyOp op s).2).getLastD s.campaign.pipeline_state := by
  cases op with
  | runPipeline env now =>
    have hc : s.campaign.pipeline_state = .CREATED := h
    simp only [applyOp, executePipeline]
    split_ifs with h1 h2 h3 h4
    · exact ⟨by simp, rfl⟩
    · refine ⟨?_, by rfl⟩
      rw [hc]
      simp only [List.chain'_cons, List.chain'_singleton]
      exact ⟨by decide, by decide, trivial⟩
    · refine ⟨?_, by rfl⟩
      rw [hc]
      simp only [List.chain'_cons, List.chain'_singleton]
      exact ⟨by decide, by decide, by decide, trivial⟩
    · refine ⟨?_, by rfl⟩
      rw [hc]
      simp only [List.chain'_cons, List.chain'_singleton]
      exact ⟨by decide, by decide, by decide, by decide, trivial⟩
    · split
      · refine ⟨?_, by rfl⟩
        rw [hc]
        simp only [List.chain'_cons, List.chain'_singleton]
        exact ⟨by decide, by decide, by decide, by decide, trivial⟩
      · split_ifs with h5
        · refine ⟨?_, by rfl⟩
          rw [hc]
          simp only [List.chain'_cons, List.chain'_singleton]
          exact ⟨by decide, by decide, by decide, by decide, by decide, trivial⟩
        · rcases dispatch_shape env.emailSend env.callSend now _ with
            ⟨hw, hst⟩ | ⟨hw, hap, hst⟩
          · rw [hw, hst]
            refine ⟨?_, by rfl⟩
            rw [hc]
            simp only [List.append_nil, List.chain'_cons, List.chain'_singleton]
            exact ⟨by decide, by decide, by decide, by decide, by decide, trivial⟩
          · rw [hw, hst]
            refine ⟨?_, by rfl⟩
            rw [hc]
            simp only [List.cons_append, List.nil_append, List.chain'_cons,
              List.chain'_singleton]
            exact ⟨by decide, by decide, by decide, by decide, by decide,
              by decide, by decide, trivial⟩
  | approveSession regen user now acts =>
    simp only [applyOp, approvalSession]
    by_cases h1 : s.campaign.pipeline_state ≠ .AWAITING_APPROVAL
    · rw [if_pos h1]
      simp
    · rw [if_neg h1]
      have h5 : s.campaign.pipeline_state = .AWAITING_APPROVAL := not_not.mp h1
      rcases sessLoop_pipeline_state regen user now acts s
          (s.campaign.generated_content.getD {})
          (orderedEmails (personalizedSrc (s.campaign.generated_content.getD {})))
        with ⟨ho, hst⟩ | ⟨ho, hst⟩
      · simp only [ho, hst, h5]
        refine ⟨?_, by simp⟩
        rw [if_pos trivial]
        simp only [List.chain'_cons, List.chain'_singleton]
        exact ⟨by decide, trivial⟩
      · simp only [if_neg ho, hst]
        simp
  | dispatchCall emailSend callSend now =>
    rcases dispatch_shape emailSend callSend now s with ⟨hw, hst⟩ | ⟨hw, hap, hst⟩
    · simp only [applyOp]
      rw [hw, hst]
      exact ⟨by simp, rfl⟩
    · simp only [applyOp]
      rw [hw, hst, hap]
      refine ⟨?_, by rfl⟩
      simp only [List.chain'_cons, List.chain'_singleton]
      exact ⟨by decide, by decide, trivial⟩

/-- Claim C5, amended: along any sequence of core operations in which the
orchestrator is only invoked while the campaign is in `CREATED` state, the
observed lifecycle-state sequence never moves backward along the graph: each
adjacent pair is forward or a fall to `FAILED` from a non-terminal state.
(The unamended claim is refuted by `C5_counterexample`: the orchestrator's
precondition also admits re-running an already-advanced campaign, and such a
re-run writes `CLASSIFIED` again, a backward move that is not `FAILED`.) -/
theorem C5_lifecycle_monotonic_amended (ops : List CoreOp) :
    ∀ s : SystemState, runsOnlyFromCreated s ops →
      List.Chain' stepOk (observedStates s ops) := by
  induction ops with
  | nil =>
    intro s _
    simp [observedStates, stateWrites]
  | cons op ops ih =>
    intro s h
    obtain ⟨hpre, hrest⟩ := h
    have hop : opPre op s := by
      cases op with
      | runPipeline env now => exact hpre
      | approveSession regen user now acts => trivial
      | dispatchCall e c n => trivial
    obtain ⟨hchain, hlast⟩ := applyOp_trace op s hop
    have ihc := ih (applyOp op s).1 hrest
    simp only [observedStates, stateWrites] at ihc ⊢
    rw [hlast] at ihc
    rw [← List.cons_append]
    apply hchain.append (ihc.tail)
    intro x hx y hy
    have hx2 : x = ((applyOp op s).2).getLastD s.campaign.pipeline_state := by
      rw [List.getLast?_cons] at hx
      rw [List.getLastD_eq_getLast?]
      exact (by simpa using hx : _ = x).symm
    rw [hx2]
    exact (List.chain'_cons'.mp ihc).1 y hy

/-- Witness for the amended C5 on a concrete fresh campaign and one run. -/
theorem C5_lifecycle_monotonic_amended_witness :
    List.Chain' stepOk (observedStates cexState [.runPipeline {} 0]) :=
  C5_lifecycle_monotonic_amended [.runPipeline {} 0] cexState
    ⟨by decide, trivial⟩

/-! ## C7: lock cleanliness -/

/-- The per-contact dispatch loop never touches the campaign row. -/
lemma dispatchOne_campaign (emailSend : String → TmplFields → Option String)
    (callSend : String → String → Option (Option String)) (now : Nat)
    (contactsMap : List (String × String))
    (common : List (String × TmplFields)) (s : SystemState) (e : String) :
    (dispatchOne emailSend callSend now contactsMap common s e).campaign =
      s.campaign := by
  simp only [dispatchOne]
  repeat' first
    | rfl
    | split

lemma foldl_dispatchOne_campaign
    (emailSend : String → TmplFields → Option String)
    (callSend : String → String → Option (Option String)) (now : Nat)
    (contactsMap : List (String × String))
    (common : List (String × TmplFields)) :
    ∀ (es : List String) (s : SystemState),
      (es.foldl (dispatchOne emailSend callSend now contactsMap common)
        s).campaign = s.campaign := by
  intro es
  induction es with
  | nil => intro s; rfl
  | cons e rest ih =>
    intro s
    simp only [List.foldl_cons]
    rw [ih, dispatchOne_campaign]

/-- Dispatch never changes the lock flag. -/
lemma dispatch_lock (emailSend : String → TmplFields → Option String)
    (callSend : String → String → Option (Option String)) (now : Nat)
    (s : SystemState) :
    (dispatch_campaign emailSend callSend now s).1.campaign.pipeline_locked =
      s.campaign.pipeline_locked := by
  simp only [dispatch_campaign]
  split_ifs
  · rfl
  · rfl
  · rfl
  · show (SystemState.campaign _).pipeline_locked = _
    simp only []
    rw [foldl_dispatchOne_campaign]

/-- Claim C7 (lock cleanliness): an orchestrator run that proceeds (campaign
exists and is not locked) always ends with the lock flag false — on the
success path the final update clears it (and the auto-dispatch follow-on
never touches it), and on the failure path the handler writes `FAILED`
(with the error message) to the campaign and to its runs while clearing the
lock — so the run never leaves the campaign both locked and `FAILED`. -/
theorem C7_lock_cleanliness (env : PipelineEnv) (now : Nat) (s : SystemState)
    (h : ¬s.campaign.pipeline_locked) :
    ((executePipeline env now s).1.campaign.pipeline_locked = false)
    ∧ ((env.retrievalFails ∨ env.channelFails ∨ env.contentFails) →
        (executePipeline env now s).1.campaign.pipeline_state = .FAILED
        ∧ ∀ r ∈ (executePipeline env now s).1.runs,
            r.state = .FAILED ∧ r.error_message.isSome)
    ∧ ¬((executePipeline env now s).1.campaign.pipeline_locked = true
        ∧ (executePipeline env now s).1.campaign.pipeline_state = .FAILED) := by
  have hlock : (executePipeline env now s).1.campaign.pipeline_locked = false := by
    simp only [executePipeline]
    rw [if_neg (by simpa using h)]
    split_ifs with h2 h3 h4
    · rfl
    · rfl
    · rfl
    · split
      · rfl
      · split_ifs with h5
        · rfl
        · rw [dispatch_lock]
          rfl
  refine ⟨hlock, ?_, fun hc => by rw [hlock] at hc; exact absurd hc.1 (by simp)⟩
  intro hf
  simp only [executePipeline]
  rw [if_neg (by simpa using h)]
  by_cases h2 : env.retrievalFails
  · rw [if_pos h2]
    refine ⟨rfl, ?_⟩
    intro r hr
    simp only [failPipeline, List.mem_map] at hr
    obtain ⟨r', _, hr'⟩ := hr
    rw [← hr']
    exact ⟨rfl, rfl⟩
  · rw [if_neg h2]
    by_cases h3 : env.channelFails
    · rw [if_pos h3]
      refine ⟨rfl, ?_⟩
      intro r hr
      simp only [failPipeline, List.mem_map] at hr
      obtain ⟨r', _, hr'⟩ := hr
      rw [← hr']
      exact ⟨rfl, rfl⟩
    · rw [if_neg h3]
      have h4 : env.contentFails := by
        rcases hf with hf | hf | hf
        · exact absurd hf h2
        · exact absurd hf h3
        · exact hf
      rw [if_pos h4]
      refine ⟨rfl, ?_⟩
      intro r hr
      simp only [failPipeline, List.mem_map] at hr
      obtain ⟨r', _, hr'⟩ := hr
      rw [← hr']
      exact ⟨rfl, rfl⟩

/-- Witness for C7: one failing run on a fresh unlocked campaign. -/
theorem C7_lock_cleanliness_witness :
    (executePipeline { contentFails := true } 0 cexState).1.campaign.pipeline_locked
        = false
    ∧ (executePipeline { contentFails := true } 0
        cexState).1.campaign.pipeline_state = .FAILED :=
  ⟨(C7_lock_cleanliness { contentFails := true } 0 cexState (by decide)).1,
   ((C7_lock_cleanliness { contentFails := true } 0 cexState (by decide)).2.1
      (Or.inr (Or.inr rfl))).1⟩
